import Mathlib

/-!
Shallow embedding of the CSCV2025 two-party threshold-ECDSA core
(`src/CSCV2025/src`), covering the number-theory utilities
(`crypto/common/numbers.py`), the Paillier cryptosystem
(`crypto/common/paillier.py`), the Fiat-Shamir hashing
(`crypto/zkp/hash.py`), the Sch/Enc/Logstar/Mod proof verifiers, the MtA
subprotocol (`crypto/zkp/mta.py`), and the Keygen/Presigning/Signing
phase engines.  Python big integers are modelled as `Nat`; fallible code
returns `Except`.  The elliptic-curve module `crypto/common/ec.py` is not
present in the source tree, so the EC layer is modelled from the spec
(section 4.1) as an abstract commutative group carrying the operations the
spec assigns to it; those definitions say so in their doc comments.
-/

set_option maxRecDepth 100000

namespace CSCV

/-! ## Byte-level utilities

`bytesToNat` models Python `int.from_bytes(_, "big")`; `natToBEBytes`
models `i.to_bytes((i.bit_length() + 7) // 8, "big")` (minimal big-endian
encoding, with `0` encoded as the empty byte string); `decimalBytes`
models `str(n).encode()`.  Bytes are `Nat`s below 256.  Loops whose
termination depends on data are given explicit fuel that dominates the
number of iterations actually performed. -/

def bytesToNat (bs : List Nat) : Nat :=
  bs.foldl (fun acc b => acc * 256 + b) 0

def natToBEBytesAux : Nat → Nat → List Nat → List Nat
  | 0, _, acc => acc
  | fuel + 1, n, acc =>
    if n = 0 then acc else natToBEBytesAux fuel (n / 256) (n % 256 :: acc)

def natToBEBytes (n : Nat) : List Nat :=
  natToBEBytesAux (n + 1) n []

def decimalBytesAux : Nat → Nat → List Nat → List Nat
  | 0, _, acc => acc
  | fuel + 1, n, acc =>
    if n = 0 then acc else decimalBytesAux fuel (n / 10) ((48 + n % 10) :: acc)

def decimalBytes (n : Nat) : List Nat :=
  if n = 0 then [48] else decimalBytesAux (n + 1) n []

/-! ## SHA-256 and SHA-512/256

Executable models of `hashlib.sha256` and `hashlib.new("sha512_256")`,
the two hash functions the repository uses (`numbers.rejection_sample`
and `zkp/hash.py` respectively).  For efficient kernel reduction the
message, the schedule and the round constants are packed into single
natural numbers (32- or 64-bit big-endian limbs); both functions are
checked against the published test vectors below.  Digests are returned
directly as big-endian integers, which is the only form the repository
consumes them in (`int.from_bytes(..., "big")`). -/

def w32mask : Nat := 4294967295

def w64mask : Nat := 18446744073709551615

/-- The 64 SHA-256 round constants, packed big-endian (`K[0]` on top). -/
def sha256K : Nat :=
  8399870144517823301722239222130927227141849779511242471197906795369846673996008864786532278482947930035050432913372875699354429524650716672308175015812472005008943341011247634627600705591103756174659437448007297240981034636327441933849465611186184660803773840414514428031635770391245199770927811112653141372483794982516161135727373084047811483050876080270389320947077305721183235613169389468744126235534648516788175255292025668825020963291224099932572215580391753777671218957634024159536228058522778003881673030597872562207069818177476920296259993961459554031943090626293016819766823808480230688357231269177224952050

/-- The 80 SHA-512 round constants, packed big-endian. -/
def sha512K : Nat :=
  48799935969327324317454573271128211996440901110400544753559103821140222242040462765270234685523415735995734265097513028069214629696127979330504410405068363803640233105338079081690014599517965252282902265922514186354389730723821336489964343756820536605654444877666242259603869016454930259399203385789115481284128692419414590607127426642313384205579347747807725147450357543486256163163363051350049773588967095775245197315559294335762735378556843320130960897574247446182386460794773627164275325009070427085921379465654990694584378776354857962470583065604196649141018181788046408836182578304651239388246191266194599170214898407978275708542313525481944943791292663188267013858047788675571291518291767397893788831357177081564947100231585314834427267038616161088749070254373879016536820179976389635834987969044592205909257778209502652317833336445460759802297511004432793915890434672386862944949451528339913580416727182718006143577694617139966621035549122068101259789798862478901707014934124919677825097134076215624466281759833855116396395425705802245089712907615744067185603897215884939925953919278825196024154999384124518734748507524409725879337338070005985029194376330341555524948417948559862415272910046531059558864624317299301013910461863067320714832076875795237158048621691629967068548530980353771592785504721687805621062678333221276735719867596878593870432314647094225182154583386567771692989139208270713419265002907666919576071253477518940519317940984776946509824148520783016083114851071853476935659681590930623782712572919435319497240041495

structure Sha2State where
  a : Nat
  b : Nat
  c : Nat
  d : Nat
  e : Nat
  f : Nat
  g : Nat
  hh : Nat

def sha256H0 : Sha2State :=
  ⟨1779033703, 3144134277, 1013904242, 2773480762,
   1359893119, 2600822924, 528734635, 1541459225⟩

def sha512_256H0 : Sha2State :=
  ⟨2463787394917988140, 11481187982095705282,
   2563595384472711505, 10824532655140301501,
   10819967247969091555, 13717434660681038226,
   3098927326965381290, 1060366662362279074⟩

def rotr32 (n x : Nat) : Nat :=
  ((x >>> n) ||| (x <<< (32 - n))) &&& w32mask

def rotr64 (n x : Nat) : Nat :=
  ((x >>> n) ||| (x <<< (64 - n))) &&& w64mask

def sha256Round (st : Sha2State) (k w : Nat) : Sha2State :=
  let S1 := rotr32 6 st.e ^^^ rotr32 11 st.e ^^^ rotr32 25 st.e
  let ch := (st.e &&& st.f) ^^^ ((st.e ^^^ w32mask) &&& st.g)
  let t1 := (st.hh + S1 + ch + k + w) &&& w32mask
  let S0 := rotr32 2 st.a ^^^ rotr32 13 st.a ^^^ rotr32 22 st.a
  let maj := (st.a &&& st.b) ^^^ (st.a &&& st.c) ^^^ (st.b &&& st.c)
  let t2 := (S0 + maj) &&& w32mask
  ⟨(t1 + t2) &&& w32mask, st.a, st.b, st.c, (st.d + t1) &&& w32mask,
   st.e, st.f, st.g⟩

def sha512Round (st : Sha2State) (k w : Nat) : Sha2State :=
  let S1 := rotr64 14 st.e ^^^ rotr64 18 st.e ^^^ rotr64 41 st.e
  let ch := (st.e &&& st.f) ^^^ ((st.e ^^^ w64mask) &&& st.g)
  let t1 := (st.hh + S1 + ch + k + w) &&& w64mask
  let S0 := rotr64 28 st.a ^^^ rotr64 34 st.a ^^^ rotr64 39 st.a
  let maj := (st.a &&& st.b) ^^^ (st.a &&& st.c) ^^^ (st.b &&& st.c)
  let t2 := (S0 + maj) &&& w64mask
  ⟨(t1 + t2) &&& w64mask, st.a, st.b, st.c, (st.d + t1) &&& w64mask,
   st.e, st.f, st.g⟩

/-- Message-schedule extension on the packed word list: the newest word
sits in the low limb, so `W[j-2]`, `W[j-7]`, `W[j-15]`, `W[j-16]` live at
fixed limb offsets 1, 6, 14, 15. -/
def sha256Sched : Nat → Nat → Nat
  | 0, Wp => Wp
  | fuel + 1, Wp =>
    let x15 := (Wp >>> 448) &&& w32mask
    let x2 := (Wp >>> 32) &&& w32mask
    let s0 := rotr32 7 x15 ^^^ rotr32 18 x15 ^^^ (x15 >>> 3)
    let s1 := rotr32 17 x2 ^^^ rotr32 19 x2 ^^^ (x2 >>> 10)
    let neww := ((Wp >>> 480) &&& w32mask) + s0 + ((Wp >>> 192) &&& w32mask) + s1
    sha256Sched fuel ((Wp <<< 32) ||| (neww &&& w32mask))

def sha512Sched : Nat → Nat → Nat
  | 0, Wp => Wp
  | fuel + 1, Wp =>
    let x15 := (Wp >>> 896) &&& w64mask
    let x2 := (Wp >>> 64) &&& w64mask
    let s0 := rotr64 1 x15 ^^^ rotr64 8 x15 ^^^ (x15 >>> 7)
    let s1 := rotr64 19 x2 ^^^ rotr64 61 x2 ^^^ (x2 >>> 6)
    let neww := ((Wp >>> 960) &&& w64mask) + s0 + ((Wp >>> 384) &&& w64mask) + s1
    sha512Sched fuel ((Wp <<< 64) ||| (neww &&& w64mask))

/-- Compression rounds; with `fuel` rounds left, round `i = R - fuel`
reads constant and schedule word at limb offset `fuel - 1` from the low
end, i.e. in ascending order. -/
def sha256Rounds : Nat → Nat → Sha2State → Sha2State
  | 0, _, st => st
  | fuel + 1, Wp, st =>
    sha256Rounds fuel Wp
      (sha256Round st ((sha256K >>> (32 * fuel)) &&& w32mask)
        ((Wp >>> (32 * fuel)) &&& w32mask))

def sha512Rounds : Nat → Nat → Sha2State → Sha2State
  | 0, _, st => st
  | fuel + 1, Wp, st =>
    sha512Rounds fuel Wp
      (sha512Round st ((sha512K >>> (64 * fuel)) &&& w64mask)
        ((Wp >>> (64 * fuel)) &&& w64mask))

def sha256Compress (H : Sha2State) (block : Nat) : Sha2State :=
  let st := sha256Rounds 64 (sha256Sched 48 block) H
  ⟨(H.a + st.a) &&& w32mask, (H.b + st.b) &&& w32mask,
   (H.c + st.c) &&& w32mask, (H.d + st.d) &&& w32mask,
   (H.e + st.e) &&& w32mask, (H.f + st.f) &&& w32mask,
   (H.g + st.g) &&& w32mask, (H.hh + st.hh) &&& w32mask⟩

def sha512Compress (H : Sha2State) (block : Nat) : Sha2State :=
  let st := sha512Rounds 80 (sha512Sched 64 block) H
  ⟨(H.a + st.a) &&& w64mask, (H.b + st.b) &&& w64mask,
   (H.c + st.c) &&& w64mask, (H.d + st.d) &&& w64mask,
   (H.e + st.e) &&& w64mask, (H.f + st.f) &&& w64mask,
   (H.g + st.g) &&& w64mask, (H.hh + st.hh) &&& w64mask⟩

/-- Process the `fuel` remaining 512-bit blocks of the packed, padded
message `data` (block `i` sits at bit offset `512 * (nb - 1 - i)`). -/
def sha256Blocks : Nat → Nat → Sha2State → Sha2State
  | 0, _, H => H
  | nb + 1, data, H =>
    sha256Blocks nb data
      (sha256Compress H ((data >>> (512 * nb)) &&& (2 ^ 512 - 1)))

def sha512Blocks : Nat → Nat → Sha2State → Sha2State
  | 0, _, H => H
  | nb + 1, data, H =>
    sha512Blocks nb data
      (sha512Compress H ((data >>> (1024 * nb)) &&& (2 ^ 1024 - 1)))

/-- SHA-256 of a byte list, returned as a big-endian integer.  Padding:
append `0x80`, then zeros to 56 mod 64 bytes, then the 8-byte bit
length; all performed on the packed message. -/
def sha256Nat (msg : List Nat) : Nat :=
  let L := msg.length
  let z := (119 - L % 64) % 64
  let data := (bytesToNat msg * 256 + 128) * 2 ^ (8 * (z + 8)) + 8 * L
  let nb := (L + 1 + z + 8) / 64
  let Hf := sha256Blocks nb data sha256H0
  ((((((Hf.a <<< 32 ||| Hf.b) <<< 32 ||| Hf.c) <<< 32 ||| Hf.d) <<< 32
      ||| Hf.e) <<< 32 ||| Hf.f) <<< 32 ||| Hf.g) <<< 32 ||| Hf.hh

/-- SHA-512/256 of a byte list, returned as a big-endian integer: SHA-512
with the SHA-512/256 initial state, truncated to the first 256 bits. -/
def sha512_256Nat (msg : List Nat) : Nat :=
  let L := msg.length
  let z := (239 - L % 128) % 128
  let data := (bytesToNat msg * 256 + 128) * 2 ^ (8 * (z + 16)) + 8 * L
  let nb := (L + 1 + z + 16) / 128
  let Hf := sha512Blocks nb data sha512_256H0
  ((Hf.a <<< 64 ||| Hf.b) <<< 64 ||| Hf.c) <<< 64 ||| Hf.d

/-! ## Fiat-Shamir integer hashing (`crypto/zkp/hash.py`) -/

/-- Model of `sha512_256i`: every integer is rendered as its minimal
big-endian byte string (the integer `0` becomes the empty string), each
part is followed by the delimiter byte `b"$"` (36), and the SHA-512/256
digest of the concatenation is read back as a big-endian integer. -/
def sha512_256i (ins : List Nat) : Nat :=
  sha512_256Nat (ins.foldr (fun i acc => natToBEBytes i ++ 36 :: acc) [])

/-! ## Number-theory utilities (`crypto/common/numbers.py`) plus the
modular-arithmetic primitives (`gmpy2.powmod`, `gmpy2.invert`,
`gmpy2.jacobi`, `int.bit_length`) that the source uses as library
functions. -/

/-- Model of `is_in_interval`: `0 <= x < bound`. -/
def is_in_interval (x bound : Nat) : Bool :=
  x < bound

/-- Model of `check_invertible_and_valid_mod`: every value is in
`(0, modulus)` and coprime to the modulus. -/
def check_invertible_and_valid_mod (modulus : Nat) (vals : List Nat) : Bool :=
  vals.all fun v => decide (0 < v ∧ v < modulus ∧ Nat.gcd v modulus = 1)

/-- Model of `rejection_sample`: starting from `r = 0`, repeatedly shift
`r` left by 256 bits and OR in the SHA-256 digest of the decimal string
of `h + i` until `r` reaches `modulus`, then reduce.  The Python `while`
loop is given fuel `modulus + 1`, which dominates the number of
iterations whenever some digest is non-zero. -/
def rejectionSampleAux (modulus h : Nat) : Nat → Nat → Nat → Nat
  | 0, r, _ => r % modulus
  | fuel + 1, r, i =>
    if r < modulus then
      rejectionSampleAux modulus h fuel
        ((r <<< 256) ||| sha256Nat (decimalBytes (h + i))) (i + 1)
    else r % modulus

def rejection_sample (modulus h : Nat) : Nat :=
  rejectionSampleAux modulus h (modulus + 1) 0 0

/-- Model of `gmpy2.powmod` for non-negative operands: binary modular
exponentiation, written with explicit fuel so that it reduces in the
kernel. -/
def powModAux (m : Nat) : Nat → Nat → Nat → Nat
  | 0, _, _ => 1 % m
  | fuel + 1, b, e =>
    if e = 0 then 1 % m
    else
      let r := powModAux m fuel (b * b % m) (e / 2)
      if e % 2 = 1 then r * b % m else r

def powMod (b e m : Nat) : Nat :=
  powModAux m (e + 1) b e

/-- Model of `gmpy2.invert`: the modular inverse of `a` modulo `m`,
realized as the unique witness below `m`; callers guard against the
non-invertible case, in which gmpy2 raises `ZeroDivisionError`. -/
def invert (a m : Nat) : Nat :=
  ((List.range m).find? (fun x => a * x % m == 1 % m)).getD 0

/-- Model of Python `int.bit_length`. -/
def bitLenAux : Nat → Nat → Nat
  | 0, _ => 0
  | fuel + 1, n => if n = 0 then 0 else bitLenAux fuel (n / 2) + 1

def bitLen (n : Nat) : Nat :=
  bitLenAux (n + 1) n

/-- Model of `gmpy2.jacobi` for odd positive second argument (the only
way the source calls it), via quadratic reciprocity.  Fuel dominates the
number of iterations because `a + n` strictly decreases. -/
def jacobiAux : Nat → Nat → Nat → Int → Int
  | 0, _, _, _ => 0
  | fuel + 1, a, n, acc =>
    if n = 1 then acc
    else if a = 0 then 0
    else if a % 2 = 0 then
      jacobiAux fuel (a / 2) n (if n % 8 = 3 ∨ n % 8 = 5 then -acc else acc)
    else if a = 1 then acc
    else jacobiAux fuel (n % a) a (if a % 4 = 3 ∧ n % 4 = 3 then -acc else acc)

def jacobi (a n : Nat) : Int :=
  jacobiAux (2 * (a + n) + 4) (a % n) n 1

/-- Model of `is_quadratic_residue`: the Jacobi symbol equals one. -/
def is_quadratic_residue (x n : Nat) : Bool :=
  jacobi x n == 1

/-! ## Paillier cryptosystem (`crypto/common/paillier.py`)

The class structure is flattened: a `PublicKey` is its modulus `N` (with
`n_square = N * N` and `gamma = N + 1` computed on the fly), a
`PrivateKey` additionally carries `lambda_n`; exceptions become
`Except`.  Randomness drawn inside `encrypt_and_return_randomness` is
passed in as an argument, constrained exactly as
`get_random_positive_relatively_prime_int` guarantees. -/

inductive PaillierError
  | messageTooLong
  | messageMalformed
  | wrongRandomness
  | genericError
deriving DecidableEq

/-- Model of `PublicKey.encrypt_with_randomness` (and of
`encrypt_and_return_randomness` once its random draw `x` is fixed):
ciphertext `(N+1)^m * x^N mod N^2`. -/
def encrypt_with_randomness (N m x : Nat) : Except PaillierError Nat :=
  if ¬ m < N then .error .messageMalformed
  else if ¬ (0 < x ∧ x < N ∧ Nat.gcd x N = 1) then .error .wrongRandomness
  else .ok (powMod (N + 1) m (N * N) * powMod x N (N * N) % (N * N))

/-- Model of `PublicKey.homo_mult`. -/
def homo_mult (N m c1 : Nat) : Except PaillierError Nat :=
  if ¬ m < N then .error .messageMalformed
  else if ¬ c1 < N * N then .error .messageTooLong
  else .ok (powMod c1 m (N * N))

/-- Model of `PublicKey.homo_add`. -/
def homo_add (N c1 c2 : Nat) : Except PaillierError Nat :=
  if ¬ (c1 < N * N ∧ c2 < N * N) then .error .messageMalformed
  else .ok (c1 * c2 % (N * N))

/-- Model of `PrivateKey._L`. -/
def paillierL (N u : Nat) : Nat :=
  (u - 1) / N

/-- Model of `PrivateKey.decrypt` (with `cache_lg_inv` inlined); the
guard on `Nat.gcd lg N` captures `gmpy2.invert` raising on a
non-invertible argument. -/
def decrypt (N lam c : Nat) : Except PaillierError Nat :=
  if ¬ (c < N * N ∧ Nat.gcd c (N * N) = 1) then .error .messageMalformed
  else if ¬ Nat.gcd (paillierL N (powMod (N + 1) lam (N * N))) N = 1 then
    .error .genericError
  else
    .ok (paillierL N (powMod c lam (N * N)) *
      invert (paillierL N (powMod (N + 1) lam (N * N))) N % N)

/-- Model of the acceptance test in `generate_safe_prime`: a candidate
returned by `getPrime(bits)` is kept iff its bit length is at least
`bits` and it is `3 mod 4`.  Despite the function's name, primality of
`(p - 1) / 2` is never tested. -/
def generate_safe_prime_accepts (bits p : Nat) : Bool :=
  decide (bits ≤ bitLen p ∧ p % 4 = 3)

/-- `lambda_n` of `generate_key_pair`: `lcm(p - 1, q - 1)`. -/
def keyLambda (p q : Nat) : Nat :=
  Nat.lcm (p - 1) (q - 1)

/-- `phi_n` of `generate_key_pair`: `(p - 1) * (q - 1)`. -/
def keyPhi (p q : Nat) : Nat :=
  (p - 1) * (q - 1)

/-- The post-condition of `generate_key_pair(bits)` on its secret primes:
`getPrime(bits // 2)` returns a prime of exactly `bits // 2` bits
(PyCryptodome's documented contract), `generate_safe_prime` additionally
enforces `p % 4 = 3`, and the outer loop rejects `p = q`. -/
def IsGeneratedKeyPair (bits p q : Nat) : Prop :=
  Nat.Prime p ∧ Nat.Prime q ∧ p ≠ q ∧
  bitLen p = bits / 2 ∧ bitLen q = bits / 2 ∧ p % 4 = 3 ∧ q % 4 = 3

/-! ## The Mod proof (`crypto/zkp/mod.py`) -/

structure ProofMod where
  W : Nat
  X : List Nat
  A : Nat
  B : Nat
  Z : List Nat

def modIterations : Nat := 80

/-- Fiat-Shamir derivation of the challenge values `Y[i]` shared by
`ProofMod.new_proof` and `ProofMod.verify`: `Y[i]` is rejection-sampled
below `N` from the hash of `(ssid, W, N, Y[0..i-1])`. -/
def modYs (ssid W N : Nat) : Nat → List Nat
  | 0 => []
  | k + 1 =>
    let prev := modYs ssid W N k
    prev ++ [rejection_sample N (sha512_256i ([ssid, W, N] ++ prev))]

/-- One iteration of the `ProofMod.verify` loop: check
`Z[i]^N = Y[i] mod N`, unpack the choice bytes `a`, `b` for this
iteration from `A` and `B` (each must be 0 or 1), and check
`X[i]^4 = (-1)^a * W^b * Y[i] mod N`. -/
def modVerifyIter (N W A B : Nat) (X Z Y : List Nat) (i : Nat) : Bool :=
  if powMod (Z.getD i 0) N N ≠ Y.getD i 0 then false
  else
    let shift := 8 * (modIterations - 1 - i)
    let a := (A >>> shift) &&& 255
    let b := (B >>> shift) &&& 255
    if ¬ (a = 0 ∨ a = 1) ∨ ¬ (b = 0 ∨ b = 1) then false
    else
      let right0 := Y.getD i 0
      let right1 := if a > 0 then (N - right0) % N else right0
      let right2 := if b > 0 then W * right1 % N else right1
      powMod (X.getD i 0) 4 N == right2

/-- Model of `ProofMod.verify` (for odd moduli, the only ones the
protocol feeds it: `gmpy2.jacobi` would raise on an even `N` before any
result were produced). -/
def proofModVerify (ssid N : Nat) (prf : ProofMod) : Bool :=
  if N = 0 then false
  else if is_quadratic_residue prf.W N then false
  else if ¬ (0 < prf.W ∧ prf.W < N ∧
      prf.Z.all (fun z => decide (0 < z ∧ z < N)) ∧
      prf.X.all (fun x => decide (0 < x ∧ x < N))) then false
  else if ¬ (8 * modIterations < bitLen prf.A ∧
      bitLen prf.A ≤ 8 * (modIterations + 1)) then false
  else if ¬ (8 * modIterations < bitLen prf.B ∧
      bitLen prf.B ≤ 8 * (modIterations + 1)) then false
  else if N % 2 = 0 then false
  else
    (List.range modIterations).all
      (modVerifyIter N prf.W prf.A prf.B prf.X prf.Z
        (modYs ssid prf.W N modIterations))

/-! ## The Enc proof (`crypto/zkp/enc.py`)

Only the verifier is modelled (no claim concerns `ProofEnc.new_proof`).
The elliptic-curve argument contributes only the integers
`ec.curve.b`, `ec.n` and `ec.p` to the Fiat-Shamir hash; they are passed
as `bcoef`, `q` and `pfield`. -/

structure ProofEnc where
  S : Nat
  A : Nat
  C : Nat
  Z1 : Nat
  Z2 : Nat
  Z3 : Nat

def encChallenge (ssid pkN bcoef q pfield NCap s t K S A C : Nat) : Nat :=
  rejection_sample q
    (sha512_256i [ssid, pkN, pkN + 1, bcoef, q, pfield, NCap, s, t, K, S, A, C])

/-- Model of `ProofEnc.verify`.  The leading truthiness test mirrors
Python `all([ec, pk, NCap, s, t, K])` (an integer is falsy iff zero);
the range and invertibility gates run before the two algebraic checks,
and every failure path returns `false` rather than raising. -/
def proofEncVerify (ssid q bcoef pfield pkN NCap s t K : Nat)
    (prf : ProofEnc) : Bool :=
  if NCap = 0 ∨ s = 0 ∨ t = 0 ∨ K = 0 then false
  else if ¬ is_in_interval prf.Z1 (q ^ 3) then false
  else if ¬ check_invertible_and_valid_mod NCap [prf.S, prf.C] then false
  else if ¬ check_invertible_and_valid_mod (pkN * pkN) [prf.A] then false
  else if ¬ check_invertible_and_valid_mod pkN [prf.Z2] then false
  else
    let e := encChallenge ssid pkN bcoef q pfield NCap s t K prf.S prf.A prf.C
    if powMod (pkN + 1) prf.Z1 (pkN * pkN) * powMod prf.Z2 pkN (pkN * pkN)
        % (pkN * pkN) ≠ prf.A * powMod K e (pkN * pkN) % (pkN * pkN) then false
    else if powMod s prf.Z1 NCap * powMod t prf.Z3 NCap % NCap ≠
        prf.C * powMod prf.S e NCap % NCap then false
    else true

/-! ## A forged Mod proof for a prime modulus (used by claim C8)

The values below satisfy every check of `ProofMod.verify` for the prime
modulus `N = 10007` (which is `3 mod 4`): `W = 5` has Jacobi symbol `-1`,
`Z[i] = Y[i]` passes `Z[i]^N = Y[i]` by Fermat, and because every
quadratic residue modulo a prime `3 mod 4` is a fourth power, a fourth
root `X[i]` of `Y[i]` or `N - Y[i]` always exists. -/

def c8N : Nat := 10007

def c8Proof : ProofMod :=
  { W := 5
    X :=
[   6206, 576, 8810, 4056, 2052, 4829, 7825, 2357, 7847, 5052, 7154, 422,
   7565, 2013, 8083, 6424, 3812, 6881, 6989, 3368, 9755, 529, 2172, 6501,
   4800, 8623, 3103, 121, 7116, 9744, 9193, 5358, 868, 7576, 127, 6469,
   7753, 966, 9279, 7749, 8534, 8106, 6003, 3530, 5492, 2790, 5292, 1688,
   3182, 26, 7411, 4134, 8060, 7641, 7644, 8790, 4525, 4559, 3448, 2403,
   4702, 4069, 7665, 8795, 4900, 6582, 5604, 7322, 1290, 5487, 6188, 793,
   7619, 5423, 9756, 3749, 409, 6230, 1978, 8567]
    A := 1163422427383983703604179086949496506596710271874004783582702590697489733948916579851894734285645816890529729527329629965940258555684775074152055527228872790473731375814026259485124713647647490304
    B := 1163422357493659780753498759453574287847773269348382782297694092064315167638212733559007766885929706943553788941266573864225619703950736689554428636529164618004258641961867562271132919022883962880
    Z :=
[   653, 4648, 3425, 1714, 7535, 4755, 8152, 5619, 7585, 4838, 14, 3155,
   7598, 3248, 7873, 8376, 8580, 4142, 4558, 8063, 7065, 4066, 4490, 5326,
   9574, 5711, 6839, 1066, 2398, 6146, 9236, 9992, 8328, 4022, 2669, 2765,
   5139, 9371, 336, 7499, 1860, 1942, 7251, 886, 2505, 449, 7137, 2887,
   1088, 6661, 829, 2800, 2044, 4418, 1245, 2809, 6626, 3364, 439, 3198,
   5531, 5306, 1495, 4187, 2347, 7146, 6823, 8032, 4197, 2631, 2716, 7314,
   547, 846, 444, 8796, 1391, 5360, 6040, 3567] }

/-! ## MtA (`crypto/zkp/mta.py`)

`new_mta` is modelled up to its numeric outputs.  The `ec` argument
contributes only the curve order `q = ec.n`; the randomness drawn inside
the two `encrypt_and_return_randomness` calls is passed in as `sij` and
`rij` (constrained exactly as the sampler guarantees); the companion
Aff-g proof object influences neither `Dji` nor `Fji` nor `beta` and no
claim concerns it. -/

structure MtAOut where
  Dji : Nat
  Fji : Nat
  sij : Nat
  rij : Nat
  beta : Nat

inductive MtAError where
  | paillier (e : PaillierError)
  | valueError

/-- Model of `new_mta` (`crypto/zkp/mta.py`): sample the blinding value
`beta_neg = rejection_sample(q^5, ssid)`, build the three Paillier
ciphertext steps, then call `ProofAffg.new_proof`, whose argument guard
(`affg.py`, `if not all([...])`) raises `ValueError` whenever any of its
numeric arguments `NCap, s, t, C = K_j, D = Dji, Y = Fji,
x = gamma_i mod q, y = beta_neg, rho = sij, rhoy = rij` is zero (the
object arguments — `ec`, the two public keys and the point `X` — are
always truthy in Python).  Past that guard `new_proof` always returns,
so the Aff-g proof object itself, which no claim reads, is elided from
`MtAOut`. -/
def new_mta (ssid q Kj gamma_i Nj Ni NCap s t sij rij : Nat) :
    Except MtAError MtAOut :=
  let beta_neg := rejection_sample (q ^ 5) ssid
  match homo_mult Nj (gamma_i % Nj) Kj with
  | .error e => .error (.paillier e)
  | .ok gammaK =>
    match encrypt_with_randomness Nj (beta_neg % Nj) sij with
    | .error e => .error (.paillier e)
    | .ok Dji0 =>
      match homo_add Nj gammaK Dji0 with
      | .error e => .error (.paillier e)
      | .ok Dji =>
        match encrypt_with_randomness Ni (beta_neg % Ni) rij with
        | .error e => .error (.paillier e)
        | .ok Fji =>
          if NCap = 0 ∨ s = 0 ∨ t = 0 ∨ Kj = 0 ∨ Dji = 0 ∨ Fji = 0 ∨
              gamma_i % q = 0 ∨ beta_neg = 0 ∨ sij = 0 ∨ rij = 0 then
            .error .valueError
          else .ok ⟨Dji, Fji, sij, rij, q ^ 5 - beta_neg⟩

/-! ## Elliptic-curve layer

Modelled from the spec: `crypto/common/ec.py` is not part of the source
tree.  Spec section 4.1 treats the EC layer as library primitives with
standard semantics — point addition and scalar multiplication on one
fixed short-Weierstrass curve whose base point `G` generates a subgroup
of order `n` (the curve order `q`), coordinate accessors below the field
prime `p`, point validity checked on deserialization (section 6), and
textbook ECDSA verification.  `ECOps` bundles exactly that contract over
an additive commutative group of points, together with the integers
(`curve.b`, `n`, `p`) that the proof systems feed into Fiat-Shamir
hashes. -/

structure ECOps (Pt : Type) [AddCommGroup Pt] where
  G : Pt
  n : Nat
  p : Nat
  bcoef : Nat
  xcoord : Pt → Nat
  ycoord : Pt → Nat
  fromCoords : Nat → Nat → Option Pt
  n_pos : 0 < n
  order_ann : n • G = 0
  order_min : ∀ m : Nat, m < n → 0 < m → m • G ≠ 0
  xcoord_lt : ∀ P : Pt, xcoord P < p
  ycoord_lt : ∀ P : Pt, ycoord P < p
  fromCoords_eq : ∀ P : Pt, P ≠ 0 → fromCoords (xcoord P) (ycoord P) = some P

variable {Pt : Type} [AddCommGroup Pt] [DecidableEq Pt]

/-- Modelled from the spec (section 4.1): textbook ECDSA verification,
`u1 = h * s⁻¹ mod n`, `u2 = r * s⁻¹ mod n`, accept iff the x-coordinate
of `u1*G + u2*X` is congruent to `r` modulo `n`; fails when `r = 0` or
`s = 0`. -/
def ecdsaVerify (ec : ECOps Pt) (X : Pt) (h r s : Nat) : Bool :=
  if r = 0 ∨ s = 0 then false
  else
    let si := invert s ec.n
    decide (ec.xcoord ((h * si % ec.n) • ec.G + (r * si % ec.n) • X)
      % ec.n = r)

/-! ## The Schnorr proof (`crypto/zkp/sch.py`) -/

structure ProofSch (Pt : Type) where
  A : Pt
  Z : Nat

def schChallenge (ec : ECOps Pt) (ssid : Nat) (X A : Pt) : Nat :=
  rejection_sample ec.n (sha512_256i
    [ssid, ec.bcoef, ec.n, ec.p, ec.xcoord X, ec.ycoord X,
     ec.xcoord ec.G, ec.ycoord ec.G, ec.xcoord A, ec.ycoord A])

/-- Model of `ProofSch.new_proof_with_alpha`: `z = (alpha + e * x) mod q`
for the Fiat-Shamir challenge `e`. -/
def schNewProofWithAlpha (ec : ECOps Pt) (ssid : Nat) (X A : Pt)
    (alpha x : Nat) : ProofSch Pt :=
  ⟨A, (alpha + schChallenge ec ssid X A * x) % ec.n⟩

/-- Model of `ProofSch.verify`: recompute `e` and check
`z*G = A + e*X`. -/
def schVerify (ec : ECOps Pt) (ssid : Nat) (X : Pt) (prf : ProofSch Pt) : Bool :=
  decide (prf.Z • ec.G = prf.A + schChallenge ec ssid X prf.A • X)

/-- Model of `ProofSch.to_bytes_parts` at the integer level (minimal
big-endian byte strings biject with naturals). -/
def schToBytesParts (ec : ECOps Pt) (prf : ProofSch Pt) : List Nat :=
  [ec.xcoord prf.A, ec.ycoord prf.A, prf.Z]

/-- Model of `ProofSch.from_bytes`: the coordinates are reduced modulo
`ec.p`, the response modulo `ec.n`, and the point is rebuilt from its
coordinates (validity checked, per spec section 4.1). -/
def schFromBytes (ec : ECOps Pt) (parts : List Nat) : Option (ProofSch Pt) :=
  match parts with
  | [ax, ay, z] =>
    (ec.fromCoords (ax % ec.p) (ay % ec.p)).map (fun A => ⟨A, z % ec.n⟩)
  | _ => none

/-! ## The Keygen phase engine (`ecdsa/keygen.py`)

Random draws (`xi`, `rid`, the Schnorr nonces `alphai` and the fresh
nonce drawn inside `ProofSch.new_proof` during round 3) are passed to
the model as arguments. -/

inductive ProtoError
  | verificationError
  | valueError
  | zeroDivisionError
  | typeError
deriving DecidableEq

structure KeygenState (Pt : Type) where
  id : Nat
  xi : Nat
  Xi : Pt
  rid : Nat
  alphai : Nat
  Ai : Pt
  Vi : Nat

structure KeygenRound1Message where
  id : Nat
  V : Nat

structure KeygenRound2Message (Pt : Type) where
  rid : Nat
  X : Pt
  A : Pt

structure KeygenRound3Message where
  schX : List Nat
  schA : List Nat
  psi : Nat

structure KeygenState3 (Pt : Type) where
  base : KeygenState Pt
  Xj : Pt
  Aj : Pt
  srid : Nat

structure KeygenOutputData (Pt : Type) where
  ssid : Nat
  xi : Nat
  Xi : Pt
  Xj : Pt
  X : Pt

/-- Model of `Keygen.__init__`. -/
def keygenInit (ec : ECOps Pt) (id xi rid alphai : Nat) : KeygenState Pt :=
  ⟨id, xi, xi • ec.G, rid, alphai, alphai • ec.G,
    sha512_256i [id, rid, ec.xcoord (xi • ec.G), ec.ycoord (xi • ec.G),
      ec.xcoord (alphai • ec.G), ec.ycoord (alphai • ec.G)]⟩

def keygenRound1 (st : KeygenState Pt) : KeygenRound1Message :=
  ⟨st.id, st.Vi⟩

def keygenRound2 (st : KeygenState Pt) : KeygenRound2Message Pt :=
  ⟨st.rid, st.Xi, st.Ai⟩

/-- Model of `Keygen.round3`: verify the counterparty commitment, set
`srid = rid_i xor rid_j`, build the two Schnorr proofs and the `psi`
commitment to them. -/
def keygenRound3 (ec : ECOps Pt) (st : KeygenState Pt) (alpha2 : Nat)
    (m1 : KeygenRound1Message) (m2 : KeygenRound2Message Pt) :
    Except ProtoError (KeygenState3 Pt × KeygenRound3Message) :=
  if m1.V ≠ sha512_256i [m1.id, m2.rid, ec.xcoord m2.X, ec.ycoord m2.X,
      ec.xcoord m2.A, ec.ycoord m2.A] then
    .error .verificationError
  else
    let srid := st.rid ^^^ m2.rid
    let schXi := schNewProofWithAlpha ec srid st.Xi st.Ai st.alphai st.xi
    let schAi := schNewProofWithAlpha ec srid st.Ai (alpha2 • ec.G) alpha2
      st.alphai
    .ok (⟨st, m2.X, m2.A, srid⟩,
      ⟨schToBytesParts ec schXi, schToBytesParts ec schAi,
        sha512_256i [st.id, srid, ec.xcoord schXi.A, schXi.Z,
          ec.xcoord schAi.A, schAi.Z]⟩)

/-- Model of `Keygen.round_out`: parse both proofs, verify the `psi`
commitment, check the `A` binding, verify both Schnorr proofs, output
`X = Xi + Xj` and `ssid = srid`. -/
def keygenRoundOut (ec : ECOps Pt) (st : KeygenState3 Pt) (idj : Nat)
    (m3 : KeygenRound3Message) : Except ProtoError (KeygenOutputData Pt) :=
  match schFromBytes ec m3.schX, schFromBytes ec m3.schA with
  | some schXj, some schAj =>
    if m3.psi ≠ sha512_256i [idj, st.srid, ec.xcoord schXj.A, schXj.Z,
        ec.xcoord schAj.A, schAj.Z] then
      .error .verificationError
    else if schXj.A ≠ st.Aj then .error .verificationError
    else if ¬ (schVerify ec st.srid st.Xj schXj = true ∧
        schVerify ec st.srid st.Aj schAj = true) then
      .error .verificationError
    else
      .ok ⟨st.srid, st.base.xi, st.base.Xi, st.Xj, st.base.Xi + st.Xj⟩
  | _, _ => .error .valueError

/-! ## The Log* proof (`crypto/zkp/logstar.py`)

Only the verifier is modelled at the protocol level (honest proofs enter
witnesses as concrete values). -/

structure ProofLogstar (Pt : Type) where
  S : Nat
  A : Nat
  Y : Pt
  D : Nat
  Z1 : Nat
  Z2 : Nat
  Z3 : Nat

def logstarChallenge (ec : ECOps Pt) (ssid pkN C : Nat) (X g : Pt)
    (S A : Nat) (Y : Pt) (D NCap s t : Nat) : Nat :=
  rejection_sample ec.n (sha512_256i
    [ssid, pkN, pkN + 1, ec.bcoef, ec.n, ec.p, C, ec.xcoord X, ec.ycoord X,
     ec.xcoord g, ec.ycoord g, S, A, ec.xcoord Y, ec.ycoord Y, D, NCap, s, t])

/-- Model of `ProofLogstar.verify`:  the truthiness guard, the range and
invertibility gates, then the Paillier, elliptic-curve and Ring-Pedersen
equations. -/
def logstarVerify (ec : ECOps Pt) (ssid pkN C : Nat) (X g : Pt)
    (NCap s t : Nat) (prf : ProofLogstar Pt) : Bool :=
  if C = 0 ∨ NCap = 0 ∨ s = 0 ∨ t = 0 then false
  else if ¬ is_in_interval prf.Z1 (ec.n ^ 3) then false
  else if ¬ check_invertible_and_valid_mod NCap [prf.S, prf.D] then false
  else if ¬ check_invertible_and_valid_mod (pkN * pkN) [prf.A] then false
  else if ¬ check_invertible_and_valid_mod pkN [prf.Z2] then false
  else
    if powMod (pkN + 1) prf.Z1 (pkN * pkN) * powMod prf.Z2 pkN (pkN * pkN)
        % (pkN * pkN) ≠
        powMod C (logstarChallenge ec ssid pkN C X g prf.S prf.A prf.Y prf.D
          NCap s t) (pkN * pkN) * prf.A % (pkN * pkN) then false
    else if (prf.Z1 % ec.n) • g ≠
        logstarChallenge ec ssid pkN C X g prf.S prf.A prf.Y prf.D NCap s t
          • X + prf.Y then false
    else if powMod s prf.Z1 NCap * powMod t prf.Z3 NCap % NCap ≠
        prf.D * powMod prf.S (logstarChallenge ec ssid pkN C X g prf.S prf.A
          prf.Y prf.D NCap s t) NCap % NCap then false
    else true

/-- Model of `ProofLogstar.from_bytes`: the point `Y` is rebuilt from its
raw coordinates (validity checked, per spec section 4.1). -/
def logstarFromBytes (ec : ECOps Pt) (parts : List Nat) :
    Option (ProofLogstar Pt) :=
  match parts with
  | [s, a, yx, yy, d, z1, z2, z3] =>
    (ec.fromCoords yx yy).map (fun Y => ⟨s, a, Y, d, z1, z2, z3⟩)
  | _ => none

/-! ## The Presigning phase engine (`ecdsa/presigning.py`)

Only `round_out` is modelled (the only round a claim concerns); the
state record carries exactly the fields `round_out` reads. -/

structure PresigStateOut (Pt : Type) where
  ssid : Nat
  pubiN : Nat
  pubjN : Nat
  si : Nat
  ti : Nat
  K_j_ct : Nat
  Gamma : Pt
  vdelta_i : Pt
  delta_i : Nat
  k_i : Nat
  chi_i : Nat

structure PresigningRound3Message (Pt : Type) where
  delta : Nat
  vdelta : Pt
  psi : List Nat

structure PresigOutputData (Pt : Type) where
  R : Pt
  k_i : Nat
  chi_i : Nat

/-- Model of `Presigning.round_out`: parse and verify the counterparty's
final Log* proof, combine the delta shares, check
`delta * G = vdelta_i + vdelta_j`, invert `delta` (the gcd guard models
`gmpy2.invert` raising `ZeroDivisionError`), and output
`R = delta⁻¹ * Gamma` with the private shares unchanged. -/
def presigningRoundOut (ec : ECOps Pt) (st : PresigStateOut Pt)
    (m3 : PresigningRound3Message Pt) :
    Except ProtoError (PresigOutputData Pt) :=
  match logstarFromBytes ec m3.psi with
  | none => .error .valueError
  | some psi_ij =>
    if ¬ logstarVerify ec st.ssid st.pubjN st.K_j_ct m3.vdelta st.Gamma
        st.pubiN st.si st.ti psi_ij = true then
      .error .verificationError
    else if ((st.delta_i + m3.delta) % ec.n) • ec.G ≠
        st.vdelta_i + m3.vdelta then
      .error .verificationError
    else if ¬ Nat.gcd ((st.delta_i + m3.delta) % ec.n) ec.n = 1 then
      .error .zeroDivisionError
    else
      .ok ⟨invert ((st.delta_i + m3.delta) % ec.n) ec.n • st.Gamma,
        st.k_i, st.chi_i⟩

/-! ## The Signing phase engine (`ecdsa/signing.py`) -/

structure SigningState (Pt : Type) where
  X : Pt
  R : Pt
  r : Nat
  k_i : Nat
  chi_i : Nat
  sigma_i : Option Nat

structure SigningMessage where
  sigma : Nat

/-- Model of `Signing.__init__`: `r = R.x mod q` must be non-zero,
otherwise `ValueError` is raised. -/
def signingInit (ec : ECOps Pt) (presig : PresigOutputData Pt) (X : Pt) :
    Except ProtoError (SigningState Pt) :=
  if ec.xcoord presig.R % ec.n = 0 then .error .valueError
  else
    .ok ⟨X, presig.R, ec.xcoord presig.R % ec.n, presig.k_i, presig.chi_i,
      none⟩

/-- Model of `Signing.sign`:
`sigma_i = (k_i * SHA256(message) + chi_i * r) mod q`, stored in the
state and returned. -/
def signingSign (ec : ECOps Pt) (st : SigningState Pt) (message : List Nat) :
    SigningState Pt × SigningMessage :=
  (⟨st.X, st.R, st.r, st.k_i, st.chi_i,
      some ((st.k_i * sha256Nat message + st.chi_i * st.r) % ec.n)⟩,
   ⟨(st.k_i * sha256Nat message + st.chi_i * st.r) % ec.n⟩)

/-- Model of `Signing.verify`: combine the shares into
`s = (sigma_i + sigma_j) mod q`, raise on `s = 0` or on a failing ECDSA
verification, otherwise return `True`.  A state whose `sigma_i` is still
`None` raises `TypeError` in Python. -/
def signingVerify (ec : ECOps Pt) (st : SigningState Pt) (message : List Nat)
    (m : SigningMessage) : Except ProtoError Bool :=
  match st.sigma_i with
  | none => .error .typeError
  | some sigmai =>
    if (sigmai + m.sigma) % ec.n = 0 then .error .verificationError
    else if ¬ ecdsaVerify ec st.X (sha256Nat message) st.r
        ((sigmai + m.sigma) % ec.n) = true then .error .verificationError
    else .ok true

/-! ## A concrete instance of the EC contract for witnesses -/

/-- The additive group `Fin 13` with generator `1` (of exact order 13),
both coordinate accessors `Fin.val` and a deserializer inverting them: a
minimal concrete model of the spec's EC-primitive contract, used to
instantiate witnesses. -/
def toyEC : ECOps (Fin 13) where
  G := 1
  n := 13
  p := 13
  bcoef := 0
  xcoord := Fin.val
  ycoord := Fin.val
  fromCoords := fun x y => if h : x < 13 ∧ y = x then some ⟨x, h.1⟩ else none
  n_pos := by norm_num
  order_ann := by decide
  order_min := by decide
  xcoord_lt := fun P => P.isLt
  ycoord_lt := fun P => P.isLt
  fromCoords_eq := by
    intro P hP
    show (if h : P.val < 13 ∧ P.val = P.val then some (⟨P.val, h.1⟩ : Fin 13)
      else none) = some P
    rw [dif_pos (⟨P.isLt, rfl⟩ : P.val < 13 ∧ P.val = P.val)]

/-- Concrete `round_out` state for witnesses: ring-Pedersen parameters
`(NCap, s, t) = (77, 2, 3)`, counterparty Paillier modulus `437`,
`K_j = Enc(5)` under randomness `2`, `Gamma = 4`, `vdelta_i = 11`,
`delta_i = 2`. -/
def c4St : PresigStateOut (Fin 13) :=
  ⟨1, 77, 437, 2, 3, 135749, 4, 11, 2, 9, 10⟩

/-- Concrete honest round-3 message for witnesses: `delta_j = 3`,
`vdelta_j = 5 * Gamma = 7`, and a valid Log* proof (nonce
`alpha = 1, mu = 1, gamma = 2, r = 3`, challenge `e = 11`). -/
def c4Msg : PresigningRound3Message (Fin 13) :=
  ⟨3, 7, [19, 59162, 4, 4, 18, 56, 26, 13]⟩

/-! ## Supporting lemmas -/


/-- SHA-256 of the empty byte string matches the published test vector. -/
theorem sha256_nil_vector :
    sha256Nat [] =
      0xe3b0c44298fc1c149afbf4c8996fb92427ae41e4649b934ca495991b7852b855 := by
  rfl

/-- SHA-256 of `"abc"` matches the published test vector. -/
theorem sha256_abc_vector :
    sha256Nat [97, 98, 99] =
      0xba7816bf8f01cfea414140de5dae2223b00361a396177a9cb410ff61f20015ad := by
  rfl

/-- SHA-512/256 of the empty byte string matches the published test vector. -/
theorem sha512_256_nil_vector :
    sha512_256Nat [] =
      0xc672b8d1ef56ed28ab87c3622c5114069bdd3ad7b8f9737498d0c01ecef0967a := by
  rfl

/-- SHA-512/256 of `"abc"` matches the published test vector. -/
theorem sha512_256_abc_vector :
    sha512_256Nat [97, 98, 99] =
      0x53048e2681941ef99b2e29b76b4c7dabe4c2d0c634fc6d46e0e2f13107e7af23 := by
  rfl

theorem rejectionSampleAux_lt (modulus h : Nat) (hm : 0 < modulus) :
    ∀ fuel r i, rejectionSampleAux modulus h fuel r i < modulus := by
  intro fuel
  induction fuel with
  | zero => intro r i; exact Nat.mod_lt _ hm
  | succ n ih =>
    intro r i
    simp only [rejectionSampleAux]
    split
    · exact ih _ _
    · exact Nat.mod_lt _ hm


/-- The output of `rejection_sample` lies in `[0, modulus)`. -/
theorem rejection_sample_lt (modulus h : Nat) (hm : 0 < modulus) :
    rejection_sample modulus h < modulus :=
  rejectionSampleAux_lt modulus h hm _ 0 0


theorem powModAux_eq (m : Nat) (hm : 0 < m) :
    ∀ fuel b e, e < fuel → powModAux m fuel b e = b ^ e % m := by
  intro fuel
  induction fuel with
  | zero => intro b e h; omega
  | succ n ih =>
    intro b e h
    by_cases he : e = 0
    · subst he; simp [powModAux]
    · have h1 : 0 < e := Nat.pos_of_ne_zero he
      have h2 : e / 2 < n := by omega
      simp only [powModAux, if_neg he]
      rw [ih _ _ h2]
      have hbb : (b * b % m) ^ (e / 2) % m = (b * b) ^ (e / 2) % m := by
        rw [← Nat.pow_mod]
      by_cases hp : e % 2 = 1
      · rw [if_pos hp, hbb, Nat.mod_mul_mod]
        congr 1
        rw [← Nat.pow_two, ← Nat.pow_mul, ← Nat.pow_succ]
        congr 1
        omega
      · rw [if_neg hp, hbb]
        congr 1
        rw [← Nat.pow_two, ← Nat.pow_mul]
        congr 1
        omega


/-- `powMod` computes `b ^ e mod m`. -/
theorem powMod_eq (b e m : Nat) (hm : 0 < m) : powMod b e m = b ^ e % m :=
  powModAux_eq m hm _ b e (Nat.lt_succ_self e)


theorem invert_spec (a m : Nat) (hm : 1 < m) (h : Nat.Coprime a m) :
    a * invert a m % m = 1 % m := by
  haveI : NeZero m := ⟨by omega⟩
  obtain ⟨b, hb, hab⟩ : ∃ b, b < m ∧ a * b % m = 1 % m := by
    refine ⟨(((ZMod.unitOfCoprime a h)⁻¹ : (ZMod m)ˣ) : ZMod m).val,
      ZMod.val_lt _, ?_⟩
    have hu : ((a : ZMod m) *
        (((ZMod.unitOfCoprime a h)⁻¹ : (ZMod m)ˣ) : ZMod m)) = 1 := by
      rw [← ZMod.coe_unitOfCoprime a h, ← Units.val_mul, mul_inv_cancel,
        Units.val_one]
    have hcast : ((a * (((ZMod.unitOfCoprime a h)⁻¹ : (ZMod m)ˣ) :
        ZMod m).val : ℕ) : ZMod m) = ((1 : ℕ) : ZMod m) := by
      push_cast
      rw [ZMod.natCast_rightInverse _]
      simpa using hu
    exact (ZMod.natCast_eq_natCast_iff _ _ _).mp hcast
  unfold invert
  cases hf : (List.range m).find? (fun x => a * x % m == 1 % m) with
  | none =>
    exfalso
    have := List.find?_eq_none.mp hf b (List.mem_range.mpr hb)
    simp only [beq_iff_eq] at this
    exact this hab
  | some x =>
    have := List.find?_some hf
    simp only [beq_iff_eq] at this
    simpa using this


theorem bitLenAux_eq :
    ∀ fuel n, n < fuel → bitLenAux fuel n = if n = 0 then 0 else Nat.log2 n + 1 := by
  intro fuel
  induction fuel with
  | zero => intro n h; omega
  | succ k ih =>
    intro n h
    by_cases hn : n = 0
    · subst hn; simp [bitLenAux]
    · simp only [bitLenAux, if_neg hn]
      by_cases h1 : n = 1
      · subst h1
        simp [ih 0 (by omega), Nat.log2]
      · have h2 : 2 ≤ n := by omega
        rw [ih (n / 2) (by omega)]
        rw [if_neg (by omega)]
        conv_rhs => rw [Nat.log2]
        rw [if_pos h2]


theorem bitLen_eq (n : Nat) :
    bitLen n = if n = 0 then 0 else Nat.log2 n + 1 :=
  bitLenAux_eq (n + 1) n (Nat.lt_succ_self n)


/-- For non-zero `n`, `bitLen n = k` pins `n` into `[2 ^ (k - 1), 2 ^ k)`. -/
theorem bitLen_bounds (n : Nat) (h : n ≠ 0) :
    2 ^ (bitLen n - 1) ≤ n ∧ n < 2 ^ bitLen n := by
  rw [bitLen_eq, if_neg h]
  constructor
  · simpa using Nat.log2_self_le h
  · exact Nat.lt_log2_self

theorem one_add_mul_mod_sq (N t : Nat) (hN : 2 ≤ N) :
    (1 + t * N) % (N * N) = 1 + t % N * N := by
  have hNpos : 0 < N := by omega
  have ht : t % N < N := Nat.mod_lt _ hNpos
  have hlt : 1 + t % N * N < N * N := by nlinarith
  conv_lhs => rw [← Nat.div_add_mod t N]
  have hsplit : 1 + (N * (t / N) + t % N) * N = 1 + t % N * N + t / N * (N * N) := by
    ring
  rw [hsplit, Nat.add_mul_mod_self_right, Nat.mod_eq_of_lt hlt]

/-- Binomial congruence used throughout Paillier: `(N+1)^k = 1 + k*N`
modulo `N^2`. -/
theorem gamma_pow_modeq (N k : Nat) :
    (N + 1) ^ k ≡ 1 + k * N [MOD N * N] := by
  induction k with
  | zero => simpa using Nat.ModEq.refl 1
  | succ n ih =>
    have h1 : (N + 1) ^ (n + 1) = (N + 1) ^ n * (N + 1) := by ring
    have h2 : (1 + n * N) * (N + 1) = 1 + (n + 1) * N + n * (N * N) := by ring
    calc (N + 1) ^ (n + 1) = (N + 1) ^ n * (N + 1) := h1
      _ ≡ (1 + n * N) * (N + 1) [MOD N * N] := ih.mul_right _
      _ = 1 + (n + 1) * N + n * (N * N) := h2
      _ ≡ 1 + (n + 1) * N [MOD N * N] := by
          show (1 + (n + 1) * N + n * (N * N)) % (N * N) = (1 + (n + 1) * N) % (N * N)
          rw [Nat.add_mul_mod_self_right]

theorem coprime_of_modeq {a b n : Nat} (h : a ≡ b [MOD n])
    (hb : Nat.Coprime b n) : Nat.Coprime a n := by
  have h1 : Nat.gcd n a = Nat.gcd n b := by
    rw [Nat.gcd_rec n a, Nat.gcd_rec n b, h]
  unfold Nat.Coprime at *
  rw [Nat.gcd_comm, h1, Nat.gcd_comm]
  exact hb

/-- A number coprime to a modulus `M ≥ 2` is non-zero. -/
theorem ne_zero_of_coprime (x M : Nat) (hM : 2 ≤ M) (h : Nat.Coprime x M) :
    x ≠ 0 := by
  intro h0
  subst h0
  have hg : Nat.gcd 0 M = M := Nat.gcd_zero_left M
  unfold Nat.Coprime at h
  omega

/-- Carmichael-style congruence for `N = p * q`: any `x` coprime to `N`
satisfies `x ^ (N * lcm(p-1, q-1)) = 1` modulo `N^2`. -/
theorem pow_N_lambda_modeq_one (p q x : Nat) (hp : p.Prime) (hq : q.Prime)
    (hne : p ≠ q) (hx : Nat.Coprime x (p * q)) :
    x ^ (p * q * keyLambda p q) ≡ 1 [MOD p * q * (p * q)] := by
  have hxp : Nat.Coprime x p := Nat.Coprime.coprime_dvd_right (Dvd.intro q rfl) hx
  have hxq : Nat.Coprime x q :=
    Nat.Coprime.coprime_dvd_right (Dvd.intro_left p rfl) hx
  have hmodp : x ^ (p * q * keyLambda p q) ≡ 1 [MOD p ^ 2] := by
    have heuler : x ^ Nat.totient (p ^ 2) ≡ 1 [MOD p ^ 2] :=
      Nat.ModEq.pow_totient (hxp.pow_right 2)
    have htot : Nat.totient (p ^ 2) = p * (p - 1) := by
      rw [Nat.totient_prime_pow hp (by omega)]
      ring_nf
    obtain ⟨k, hk⟩ : p - 1 ∣ keyLambda p q := Nat.dvd_lcm_left _ _
    have hexp : p * q * keyLambda p q = p * (p - 1) * (q * k) := by
      rw [hk]; ring
    calc x ^ (p * q * keyLambda p q) = (x ^ (p * (p - 1))) ^ (q * k) := by
          rw [← pow_mul, hexp]
      _ ≡ 1 ^ (q * k) [MOD p ^ 2] := by
          refine Nat.ModEq.pow _ ?_
          rw [← htot]; exact heuler
      _ = 1 := one_pow _
  have hmodq : x ^ (p * q * keyLambda p q) ≡ 1 [MOD q ^ 2] := by
    have heuler : x ^ Nat.totient (q ^ 2) ≡ 1 [MOD q ^ 2] :=
      Nat.ModEq.pow_totient (hxq.pow_right 2)
    have htot : Nat.totient (q ^ 2) = q * (q - 1) := by
      rw [Nat.totient_prime_pow hq (by omega)]
      ring_nf
    obtain ⟨k, hk⟩ : q - 1 ∣ keyLambda p q := Nat.dvd_lcm_right _ _
    have hexp : p * q * keyLambda p q = q * (q - 1) * (p * k) := by
      rw [hk]; ring
    calc x ^ (p * q * keyLambda p q) = (x ^ (q * (q - 1))) ^ (p * k) := by
          rw [← pow_mul, hexp]
      _ ≡ 1 ^ (p * k) [MOD q ^ 2] := by
          refine Nat.ModEq.pow _ ?_
          rw [← htot]; exact heuler
      _ = 1 := one_pow _
  have hcop : Nat.Coprime (p ^ 2) (q ^ 2) :=
    Nat.Coprime.pow 2 2 ((Nat.coprime_primes hp hq).mpr hne)
  have := (Nat.modEq_and_modEq_iff_modEq_mul hcop).mp ⟨hmodp, hmodq⟩
  have hrw : p ^ 2 * q ^ 2 = p * q * (p * q) := by ring
  rwa [hrw] at this

/-- The base `N + 1` is invertible modulo `N`. -/
theorem gammaCoprime (N : Nat) (hN : 2 ≤ N) : Nat.Coprime (N + 1) N := by
  have h1 : (N + 1) % N = 1 % N := Nat.add_mod_left N 1
  have h2 : Nat.Coprime 1 N := Nat.coprime_one_left N
  exact coprime_of_modeq h1 h2

theorem mul_div_self_eq (a N : Nat) (hN : 0 < N) : a * N / N = a := by
  rw [Nat.mul_div_cancel _ hN]

/-- Core decryption identity: any ciphertext congruent to
`(N+1)^m * x^N` modulo `N^2` (with `x` invertible) decrypts to `m mod N`.
This single lemma powers the round-trip and both homomorphism claims. -/
theorem decrypt_modeq (p q mm x c : Nat) (hp : p.Prime) (hq : q.Prime)
    (hne : p ≠ q) (hlam : Nat.Coprime (keyLambda p q) (p * q))
    (hx : Nat.Coprime x (p * q)) (hclt : c < p * q * (p * q))
    (hc : c ≡ (p * q + 1) ^ mm * x ^ (p * q) [MOD p * q * (p * q)]) :
    decrypt (p * q) (keyLambda p q) c = .ok (mm % (p * q)) := by
  have hp2 : 2 ≤ p := hp.two_le
  have hq2 : 2 ≤ q := hq.two_le
  have hN : 2 ≤ p * q := by nlinarith
  set N := p * q with hNdef
  have hNpos : 0 < N := by omega
  have hMpos : 0 < N * N := by positivity
  have hgN : Nat.Coprime (N + 1) N := gammaCoprime N hN
  have hprodN : Nat.Coprime ((N + 1) ^ mm * x ^ N) N :=
    Nat.Coprime.mul (hgN.pow_left _) (hx.pow_left _)
  have hcN : Nat.Coprime c N :=
    coprime_of_modeq (Nat.ModEq.of_dvd (dvd_mul_right N N) hc) hprodN
  have hcNN : Nat.Coprime c (N * N) := Nat.Coprime.mul_right hcN hcN
  have hlg : paillierL N (powMod (N + 1) (keyLambda p q) (N * N)) =
      keyLambda p q % N := by
    rw [powMod_eq _ _ _ hMpos]
    have hmod := gamma_pow_modeq N (keyLambda p q)
    unfold Nat.ModEq at hmod
    rw [hmod, one_add_mul_mod_sq N _ hN]
    unfold paillierL
    rw [Nat.add_sub_cancel_left]
    exact mul_div_self_eq _ _ hNpos
  have hlgcop : Nat.Coprime (keyLambda p q % N) N :=
    coprime_of_modeq (Nat.mod_modEq _ _) hlam
  have hclam : powMod c (keyLambda p q) (N * N) =
      1 + mm * keyLambda p q % N * N := by
    rw [powMod_eq _ _ _ hMpos]
    have step1 : c ^ keyLambda p q ≡ 1 + mm * keyLambda p q * N [MOD N * N] := by
      calc c ^ keyLambda p q
          ≡ ((N + 1) ^ mm * x ^ N) ^ keyLambda p q [MOD N * N] := hc.pow _
        _ = (N + 1) ^ (mm * keyLambda p q) * x ^ (N * keyLambda p q) := by
            rw [mul_pow, ← pow_mul, ← pow_mul]
        _ ≡ (1 + mm * keyLambda p q * N) * 1 [MOD N * N] := by
            refine Nat.ModEq.mul (gamma_pow_modeq N _) ?_
            exact pow_N_lambda_modeq_one p q x hp hq hne hx
        _ = 1 + mm * keyLambda p q * N := by ring
    unfold Nat.ModEq at step1
    rw [step1, one_add_mul_mod_sq N _ hN]
  have hfinal : mm * keyLambda p q % N * invert (keyLambda p q % N) N ≡
      mm [MOD N] := by
    have hinv : keyLambda p q % N * invert (keyLambda p q % N) N % N = 1 % N :=
      invert_spec _ _ (by omega) hlgcop
    calc mm * keyLambda p q % N * invert (keyLambda p q % N) N
        ≡ mm * keyLambda p q * invert (keyLambda p q % N) N [MOD N] :=
          Nat.ModEq.mul_right _ (Nat.mod_modEq _ _)
      _ = mm * (keyLambda p q * invert (keyLambda p q % N) N) := by ring
      _ ≡ mm * (keyLambda p q % N * invert (keyLambda p q % N) N) [MOD N] :=
          Nat.ModEq.mul_left _ (Nat.ModEq.mul_right _ (Nat.mod_modEq _ _).symm)
      _ ≡ mm * 1 [MOD N] := Nat.ModEq.mul_left _ hinv
      _ = mm := by ring
  unfold decrypt
  rw [if_neg (not_not_intro ⟨hclt, hcNN⟩)]
  rw [hlg, if_neg (not_not_intro hlgcop)]
  congr 1
  rw [hclam]
  unfold paillierL
  rw [Nat.add_sub_cancel_left, mul_div_self_eq _ _ hNpos]
  exact hfinal

/-- Neither prime factor of `N` divides `lcm(p-1, q-1)` when both primes
have the same bit length and are `3 mod 4`. -/
theorem prime_not_dvd_lambda (p q b : Nat) (hp : p.Prime) (hq : q.Prime)
    (hp4 : p % 4 = 3) (hq4 : q % 4 = 3)
    (hpl : bitLen p = b) (hql : bitLen q = b) :
    ¬ p ∣ keyLambda p q := by
  intro hdvd
  have hp2 := hp.two_le
  have hq2 := hq.two_le
  have hp3 : 3 ≤ p := by omega
  have hq3 : 3 ≤ q := by omega
  have hlcm_dvd : keyLambda p q ∣ (p - 1) * (q - 1) :=
    Nat.lcm_dvd (dvd_mul_right _ _) (dvd_mul_left _ _)
  have hpd : p ∣ (p - 1) * (q - 1) := hdvd.trans hlcm_dvd
  rcases (Nat.Prime.dvd_mul hp).mp hpd with h1 | h2
  · have := Nat.le_of_dvd (by omega) h1
    omega
  · have hqb : q < 2 ^ b := by
      have := (bitLen_bounds q (by omega)).2
      rwa [hql] at this
    have hpb : 2 ^ (b - 1) ≤ p := by
      have := (bitLen_bounds p (by omega)).1
      rwa [hpl] at this
    have hb1 : 1 ≤ b := by
      rw [← hpl, bitLen_eq, if_neg (by omega)]
      omega
    have h2b : 2 ^ b ≤ 2 * 2 ^ (b - 1) := by
      conv_lhs => rw [show b = b - 1 + 1 by omega]
      rw [pow_succ]
      omega
    obtain ⟨k, hk⟩ := h2
    have hk1 : k = 1 := by
      rcases Nat.lt_or_ge k 2 with hlt | hge
      · have hk0 : k ≠ 0 := by
          intro h0
          rw [h0, Nat.mul_zero] at hk
          omega
        omega
      · have : 2 * p ≤ p * k := by nlinarith
        omega
    rw [hk1, Nat.mul_one] at hk
    omega

/-- `lcm(p-1, q-1)` is invertible modulo `N = p * q` for key pairs of the
shape `generate_key_pair` produces. -/
theorem lambda_coprime (p q b : Nat) (hp : p.Prime) (hq : q.Prime)
    (hp4 : p % 4 = 3) (hq4 : q % 4 = 3)
    (hpl : bitLen p = b) (hql : bitLen q = b) :
    Nat.Coprime (keyLambda p q) (p * q) := by
  have h1 := prime_not_dvd_lambda p q b hp hq hp4 hq4 hpl hql
  have h2 := prime_not_dvd_lambda q p b hq hp hq4 hp4 hql hpl
  have hsym : keyLambda q p = keyLambda p q := Nat.lcm_comm _ _
  rw [hsym] at h2
  have c1 : Nat.Coprime p (keyLambda p q) :=
    (Nat.Prime.coprime_iff_not_dvd hp).mpr h1
  have c2 : Nat.Coprime q (keyLambda p q) :=
    (Nat.Prime.coprime_iff_not_dvd hq).mpr h2
  exact (Nat.Coprime.mul c1 c2).symm

/-- Ciphertexts produced by `encrypt_with_randomness` satisfy the
congruence shape consumed by `decrypt_modeq`. -/
theorem encrypt_ok (N m x : Nat) (hN : 0 < N) (hm : m < N)
    (hx : 0 < x ∧ x < N ∧ Nat.gcd x N = 1) :
    encrypt_with_randomness N m x =
      .ok ((N + 1) ^ m * x ^ N % (N * N)) := by
  unfold encrypt_with_randomness
  rw [if_neg (not_not_intro hm), if_neg (not_not_intro hx)]
  have hM : 0 < N * N := by positivity
  rw [powMod_eq _ _ _ hM, powMod_eq _ _ _ hM, Nat.mul_mod_mod, Nat.mod_mul_mod]

/-! ## Claim theorems for the Paillier cryptosystem -/

/-- C1: Paillier decryption inverts encryption.  For every key pair
produced by `generate_key_pair` and every plaintext `0 ≤ m < N`, and for
every randomness `0 < x < N` with `gcd(x, N) = 1` (exactly what
`encrypt_and_return_randomness` may draw), encryption succeeds and
`decrypt(encrypt(m)) = m`. -/
theorem C1_paillier_roundtrip (bits p q m x : Nat)
    (hkey : IsGeneratedKeyPair bits p q) (hm : m < p * q)
    (hx : 0 < x ∧ x < p * q ∧ Nat.gcd x (p * q) = 1) :
    ∃ c, encrypt_with_randomness (p * q) m x = .ok c ∧
      decrypt (p * q) (keyLambda p q) c = .ok m := by
  obtain ⟨hp, hq, hne, hpl, hql, hp4, hq4⟩ := hkey
  have hp2 := hp.two_le
  have hq2 := hq.two_le
  have hN : 0 < p * q := by positivity
  have hM : 0 < p * q * (p * q) := by positivity
  have hlam := lambda_coprime p q (bits / 2) hp hq hp4 hq4 hpl hql
  refine ⟨(p * q + 1) ^ m * x ^ (p * q) % (p * q * (p * q)),
    encrypt_ok _ _ _ hN hm hx, ?_⟩
  have hres := decrypt_modeq p q m x
    ((p * q + 1) ^ m * x ^ (p * q) % (p * q * (p * q))) hp hq hne hlam
    hx.2.2 (Nat.mod_lt _ hM) (Nat.mod_modEq _ _)
  rwa [Nat.mod_eq_of_lt hm] at hres

/-- Helper: a closed witness for C1 at `p = 19`, `q = 23`, `m = 5`,
`x = 2` (a key pair `generate_key_pair(10)` can produce). -/
theorem C1_paillier_roundtrip_witness :
    ∃ c, encrypt_with_randomness (19 * 23) 5 2 = .ok c ∧
      decrypt (19 * 23) (keyLambda 19 23) c = .ok 5 :=
  C1_paillier_roundtrip 10 19 23 5 2
    ⟨by norm_num, by norm_num, by norm_num, by rfl, by rfl, by norm_num,
     by norm_num⟩
    (by norm_num) ⟨by norm_num, by norm_num, by norm_num⟩

/-- C2: Paillier homomorphism.  For every key pair from
`generate_key_pair`, plaintexts `a, b` and scalar `k` in `[0, N)`, and
ciphertexts of `a` and `b` under any valid randomness,
`decrypt(homo_add(Enc(a), Enc(b))) = (a + b) mod N` and
`decrypt(homo_mult(k, Enc(a))) = (k * a) mod N`. -/
theorem C2_paillier_homomorphic (bits p q a b k xa xb ca cb : Nat)
    (hkey : IsGeneratedKeyPair bits p q)
    (ha : a < p * q) (hb : b < p * q) (hk : k < p * q)
    (hxa : 0 < xa ∧ xa < p * q ∧ Nat.gcd xa (p * q) = 1)
    (hxb : 0 < xb ∧ xb < p * q ∧ Nat.gcd xb (p * q) = 1)
    (hca : encrypt_with_randomness (p * q) a xa = .ok ca)
    (hcb : encrypt_with_randomness (p * q) b xb = .ok cb) :
    (∃ cs, homo_add (p * q) ca cb = .ok cs ∧
        decrypt (p * q) (keyLambda p q) cs = .ok ((a + b) % (p * q))) ∧
    (∃ cm, homo_mult (p * q) k ca = .ok cm ∧
        decrypt (p * q) (keyLambda p q) cm = .ok (k * a % (p * q))) := by
  obtain ⟨hp, hq, hne, hpl, hql, hp4, hq4⟩ := hkey
  have hp2 := hp.two_le
  have hq2 := hq.two_le
  have hN : 0 < p * q := by positivity
  have hM : 0 < p * q * (p * q) := by positivity
  have hlam := lambda_coprime p q (bits / 2) hp hq hp4 hq4 hpl hql
  rw [encrypt_ok _ _ _ hN ha hxa] at hca
  rw [encrypt_ok _ _ _ hN hb hxb] at hcb
  have hca' : ca = (p * q + 1) ^ a * xa ^ (p * q) % (p * q * (p * q)) :=
    (Except.ok.inj hca).symm
  have hcb' : cb = (p * q + 1) ^ b * xb ^ (p * q) % (p * q * (p * q)) :=
    (Except.ok.inj hcb).symm
  have hcalt : ca < p * q * (p * q) := by rw [hca']; exact Nat.mod_lt _ hM
  have hcblt : cb < p * q * (p * q) := by rw [hcb']; exact Nat.mod_lt _ hM
  have hcamod : ca ≡ (p * q + 1) ^ a * xa ^ (p * q) [MOD p * q * (p * q)] := by
    rw [hca']; exact Nat.mod_modEq _ _
  have hcbmod : cb ≡ (p * q + 1) ^ b * xb ^ (p * q) [MOD p * q * (p * q)] := by
    rw [hcb']; exact Nat.mod_modEq _ _
  constructor
  · refine ⟨ca * cb % (p * q * (p * q)), ?_, ?_⟩
    · unfold homo_add
      rw [if_neg (not_not_intro ⟨hcalt, hcblt⟩)]
    · have hmod : ca * cb % (p * q * (p * q)) ≡
          (p * q + 1) ^ (a + b) * (xa * xb) ^ (p * q)
            [MOD p * q * (p * q)] := by
        calc ca * cb % (p * q * (p * q)) ≡ ca * cb [MOD p * q * (p * q)] :=
            Nat.mod_modEq _ _
          _ ≡ (p * q + 1) ^ a * xa ^ (p * q) *
              ((p * q + 1) ^ b * xb ^ (p * q)) [MOD p * q * (p * q)] :=
            Nat.ModEq.mul hcamod hcbmod
          _ = (p * q + 1) ^ (a + b) * (xa * xb) ^ (p * q) := by
            rw [pow_add, mul_pow]; ring
      exact decrypt_modeq p q (a + b) (xa * xb) _ hp hq hne hlam
        (Nat.Coprime.mul hxa.2.2 hxb.2.2) (Nat.mod_lt _ hM) hmod
  · refine ⟨powMod ca k (p * q * (p * q)), ?_, ?_⟩
    · unfold homo_mult
      rw [if_neg (not_not_intro hk), if_neg (not_not_intro hcalt)]
    · rw [powMod_eq _ _ _ hM]
      have hmod : ca ^ k % (p * q * (p * q)) ≡
          (p * q + 1) ^ (k * a) * (xa ^ k) ^ (p * q)
            [MOD p * q * (p * q)] := by
        calc ca ^ k % (p * q * (p * q)) ≡ ca ^ k [MOD p * q * (p * q)] :=
            Nat.mod_modEq _ _
          _ ≡ ((p * q + 1) ^ a * xa ^ (p * q)) ^ k [MOD p * q * (p * q)] :=
            hcamod.pow _
          _ = (p * q + 1) ^ (k * a) * (xa ^ k) ^ (p * q) := by
            rw [mul_pow, ← pow_mul, ← pow_mul]
            ring_nf
      exact decrypt_modeq p q (k * a) (xa ^ k) _ hp hq hne hlam
        (Nat.Coprime.pow_left _ hxa.2.2) (Nat.mod_lt _ hM) hmod

/-- Helper: a closed witness for C2 at `p = 19`, `q = 23`, `a = 5`,
`b = 7`, `k = 3`, `xa = 2`, `xb = 3`. -/
theorem C2_paillier_homomorphic_witness :
    (∃ cs, homo_add (19 * 23) 135749 115098 = .ok cs ∧
        decrypt (19 * 23) (keyLambda 19 23) cs = .ok ((5 + 7) % (19 * 23))) ∧
    (∃ cm, homo_mult (19 * 23) 3 135749 = .ok cm ∧
        decrypt (19 * 23) (keyLambda 19 23) cm = .ok (3 * 5 % (19 * 23))) :=
  C2_paillier_homomorphic 10 19 23 5 7 3 2 3 135749 115098
    ⟨by norm_num, by norm_num, by norm_num, by rfl, by rfl, by norm_num,
     by norm_num⟩
    (by norm_num) (by norm_num) (by norm_num)
    ⟨by norm_num, by norm_num, by norm_num⟩
    ⟨by norm_num, by norm_num, by norm_num⟩
    (by rfl) (by rfl)

/-- C9: the acceptance test of `generate_safe_prime` keeps any prime that
is `3 mod 4` of full bit length, without testing that `(p - 1) / 2` is
prime: it accepts `p = 19` for `bits = 5` although `(19 - 1) / 2 = 9` is
composite, so the generated factors need not be safe primes. -/
theorem C9_generate_safe_prime_not_safe :
    generate_safe_prime_accepts 5 19 = true ∧ Nat.Prime 19 ∧
      ¬ Nat.Prime ((19 - 1) / 2) := by
  refine ⟨by rfl, by norm_num, ?_⟩
  norm_num

/-- C7: `ProofEnc.verify` gating.  Whenever `Z1` lies outside
`[0, q^3)`, or `S`/`C` is not in `(0, NCap)` coprime to `NCap`, or `A`
is not in `(0, N^2)` coprime to `N^2`, or `Z2` is not in `(0, N)`
coprime to `N`, `verify` returns `false`; these gates are decided before
either algebraic equation, and as a total `Bool` function the verifier
never throws on invalid proofs. -/
theorem C7_enc_verify_gating (ssid q bcoef pfield pkN NCap s t K : Nat)
    (prf : ProofEnc)
    (hbad : is_in_interval prf.Z1 (q ^ 3) = false ∨
      check_invertible_and_valid_mod NCap [prf.S, prf.C] = false ∨
      check_invertible_and_valid_mod (pkN * pkN) [prf.A] = false ∨
      check_invertible_and_valid_mod pkN [prf.Z2] = false) :
    proofEncVerify ssid q bcoef pfield pkN NCap s t K prf = false := by
  unfold proofEncVerify
  split_ifs with h1 h2 h3 h4 h5 h6 h7 <;> try rfl
  exfalso
  rcases hbad with hb | hb | hb | hb
  · simp [hb] at h2
  · simp [hb] at h3
  · simp [hb] at h4
  · simp [hb] at h5

/-- Helper: a closed witness for C7 with `Z1 = q^3` out of range. -/
theorem C7_enc_verify_gating_witness :
    proofEncVerify 0 2 0 0 15 5 2 3 1 ⟨1, 1, 1, 8, 1, 0⟩ = false :=
  C7_enc_verify_gating 0 2 0 0 15 5 2 3 1 ⟨1, 1, 1, 8, 1, 0⟩
    (Or.inl (by rfl))

/-- C8 (amended): whenever `ProofMod.verify` accepts a proof, the packed
choice-bit integers `A` and `B` have bit length in `(8*80, 8*81]` and
every unpacked per-iteration byte is 0 or 1 — equivalently, any proof
violating these shape conditions is rejected.  (The other half of the
original claim, rejection of every prime `N`, is refuted by
`C8_counterexample_prime_modulus_accepted`.) -/
theorem C8_mod_verify_choice_bits (ssid N : Nat) (prf : ProofMod)
    (h : proofModVerify ssid N prf = true) :
    (8 * modIterations < bitLen prf.A ∧
      bitLen prf.A ≤ 8 * (modIterations + 1)) ∧
    (8 * modIterations < bitLen prf.B ∧
      bitLen prf.B ≤ 8 * (modIterations + 1)) ∧
    ∀ i, i < modIterations →
      ((prf.A >>> (8 * (modIterations - 1 - i))) &&& 255 = 0 ∨
        (prf.A >>> (8 * (modIterations - 1 - i))) &&& 255 = 1) ∧
      ((prf.B >>> (8 * (modIterations - 1 - i))) &&& 255 = 0 ∨
        (prf.B >>> (8 * (modIterations - 1 - i))) &&& 255 = 1) := by
  unfold proofModVerify at h
  split_ifs at h with h1 h2 h3 h4 h5 h6
  refine ⟨h4, h5, ?_⟩
  intro i hi
  have hall := List.all_eq_true.mp h _ (List.mem_range.mpr hi)
  by_cases hA : ((prf.A >>> (8 * (modIterations - 1 - i))) &&& 255 = 0 ∨
      (prf.A >>> (8 * (modIterations - 1 - i))) &&& 255 = 1)
  · by_cases hB : ((prf.B >>> (8 * (modIterations - 1 - i))) &&& 255 = 0 ∨
        (prf.B >>> (8 * (modIterations - 1 - i))) &&& 255 = 1)
    · exact ⟨hA, hB⟩
    · exfalso
      have hfalse : modVerifyIter N prf.W prf.A prf.B prf.X prf.Z
          (modYs ssid prf.W N modIterations) i = false := by
        simp only [modVerifyIter]
        by_cases g1 : powMod (prf.Z.getD i 0) N N ≠
            (modYs ssid prf.W N modIterations).getD i 0
        · rw [if_pos g1]
        · rw [if_neg g1, if_pos (Or.inr hB)]
      rw [hall] at hfalse
      simp at hfalse
  · exfalso
    have hfalse : modVerifyIter N prf.W prf.A prf.B prf.X prf.Z
        (modYs ssid prf.W N modIterations) i = false := by
      simp only [modVerifyIter]
      by_cases g1 : powMod (prf.Z.getD i 0) N N ≠
          (modYs ssid prf.W N modIterations).getD i 0
      · rw [if_pos g1]
      · rw [if_neg g1, if_pos (Or.inl hA)]
    rw [hall] at hfalse
    simp at hfalse

/-- The 80 Fiat-Shamir challenge values of the forged Mod proof are
evaluated one hash per lemma below, so that no single kernel check has to
hold the whole evaluation in memory. -/
theorem c8Y0 : modYs 0 5 10007 0 = [] := rfl

set_option maxHeartbeats 1000000 in
theorem c8Y1 : modYs 0 5 10007 1 = [653] := by
  rw [show modYs 0 5 10007 1 = modYs 0 5 10007 0 ++
      [rejection_sample 10007 (sha512_256i ([0, 5, 10007] ++
        modYs 0 5 10007 0))] from rfl,
    c8Y0]
  rfl

set_option maxHeartbeats 1000000 in
theorem c8Y2 : modYs 0 5 10007 2 = [653, 4648] := by
  rw [show modYs 0 5 10007 2 = modYs 0 5 10007 1 ++
      [rejection_sample 10007 (sha512_256i ([0, 5, 10007] ++
        modYs 0 5 10007 1))] from rfl,
    c8Y1]
  rfl

set_option maxHeartbeats 1000000 in
theorem c8Y3 : modYs 0 5 10007 3 = [653, 4648, 3425] := by
  rw [show modYs 0 5 10007 3 = modYs 0 5 10007 2 ++
      [rejection_sample 10007 (sha512_256i ([0, 5, 10007] ++
        modYs 0 5 10007 2))] from rfl,
    c8Y2]
  rfl

set_option maxHeartbeats 1000000 in
theorem c8Y4 : modYs 0 5 10007 4 = [653, 4648, 3425, 1714] := by
  rw [show modYs 0 5 10007 4 = modYs 0 5 10007 3 ++
      [rejection_sample 10007 (sha512_256i ([0, 5, 10007] ++
        modYs 0 5 10007 3))] from rfl,
    c8Y3]
  rfl

set_option maxHeartbeats 1000000 in
theorem c8Y5 : modYs 0 5 10007 5 = [653, 4648, 3425, 1714, 7535] := by
  rw [show modYs 0 5 10007 5 = modYs 0 5 10007 4 ++
      [rejection_sample 10007 (sha512_256i ([0, 5, 10007] ++
        modYs 0 5 10007 4))] from rfl,
    c8Y4]
  rfl

set_option maxHeartbeats 1000000 in
theorem c8Y6 : modYs 0 5 10007 6 = [653, 4648, 3425, 1714, 7535, 4755] := by
  rw [show modYs 0 5 10007 6 = modYs 0 5 10007 5 ++
      [rejection_sample 10007 (sha512_256i ([0, 5, 10007] ++
        modYs 0 5 10007 5))] from rfl,
    c8Y5]
  rfl

set_option maxHeartbeats 1000000 in
theorem c8Y7 : modYs 0 5 10007 7 = [653, 4648, 3425, 1714, 7535, 4755, 8152] := by
  rw [show modYs 0 5 10007 7 = modYs 0 5 10007 6 ++
      [rejection_sample 10007 (sha512_256i ([0, 5, 10007] ++
        modYs 0 5 10007 6))] from rfl,
    c8Y6]
  rfl

set_option maxHeartbeats 1000000 in
theorem c8Y8 : modYs 0 5 10007 8 = [653, 4648, 3425, 1714, 7535, 4755, 8152, 5619] := by
  rw [show modYs 0 5 10007 8 = modYs 0 5 10007 7 ++
      [rejection_sample 10007 (sha512_256i ([0, 5, 10007] ++
        modYs 0 5 10007 7))] from rfl,
    c8Y7]
  rfl

set_option maxHeartbeats 1000000 in
theorem c8Y9 : modYs 0 5 10007 9 = [653, 4648, 3425, 1714, 7535, 4755, 8152, 5619, 7585] := by
  rw [show modYs 0 5 10007 9 = modYs 0 5 10007 8 ++
      [rejection_sample 10007 (sha512_256i ([0, 5, 10007] ++
        modYs 0 5 10007 8))] from rfl,
    c8Y8]
  rfl

set_option maxHeartbeats 1000000 in
theorem c8Y10 : modYs 0 5 10007 10 = [653, 4648, 3425, 1714, 7535, 4755, 8152, 5619, 7585, 4838] := by
  rw [show modYs 0 5 10007 10 = modYs 0 5 10007 9 ++
      [rejection_sample 10007 (sha512_256i ([0, 5, 10007] ++
        modYs 0 5 10007 9))] from rfl,
    c8Y9]
  rfl

set_option maxHeartbeats 1000000 in
theorem c8Y11 : modYs 0 5 10007 11 = [653, 4648, 3425, 1714, 7535, 4755, 8152, 5619, 7585, 4838, 14] := by
  rw [show modYs 0 5 10007 11 = modYs 0 5 10007 10 ++
      [rejection_sample 10007 (sha512_256i ([0, 5, 10007] ++
        modYs 0 5 10007 10))] from rfl,
    c8Y10]
  rfl

set_option maxHeartbeats 1000000 in
theorem c8Y12 : modYs 0 5 10007 12 = [653, 4648, 3425, 1714, 7535, 4755, 8152, 5619, 7585, 4838, 14, 3155] := by
  rw [show modYs 0 5 10007 12 = modYs 0 5 10007 11 ++
      [rejection_sample 10007 (sha512_256i ([0, 5, 10007] ++
        modYs 0 5 10007 11))] from rfl,
    c8Y11]
  rfl

set_option maxHeartbeats 1000000 in
theorem c8Y13 : modYs 0 5 10007 13 = [653, 4648, 3425, 1714, 7535, 4755, 8152, 5619, 7585, 4838, 14, 3155, 7598] := by
  rw [show modYs 0 5 10007 13 = modYs 0 5 10007 12 ++
      [rejection_sample 10007 (sha512_256i ([0, 5, 10007] ++
        modYs 0 5 10007 12))] from rfl,
    c8Y12]
  rfl

set_option maxHeartbeats 1000000 in
theorem c8Y14 : modYs 0 5 10007 14 = [653, 4648, 3425, 1714, 7535, 4755, 8152, 5619, 7585, 4838, 14, 3155, 7598, 3248] := by
  rw [show modYs 0 5 10007 14 = modYs 0 5 10007 13 ++
      [rejection_sample 10007 (sha512_256i ([0, 5, 10007] ++
        modYs 0 5 10007 13))] from rfl,
    c8Y13]
  rfl

set_option maxHeartbeats 1000000 in
theorem c8Y15 : modYs 0 5 10007 15 = [653, 4648, 3425, 1714, 7535, 4755, 8152, 5619, 7585, 4838, 14, 3155, 7598, 3248, 7873] := by
  rw [show modYs 0 5 10007 15 = modYs 0 5 10007 14 ++
      [rejection_sample 10007 (sha512_256i ([0, 5, 10007] ++
        modYs 0 5 10007 14))] from rfl,
    c8Y14]
  rfl

set_option maxHeartbeats 1000000 in
theorem c8Y16 : modYs 0 5 10007 16 = [653, 4648, 3425, 1714, 7535, 4755, 8152, 5619, 7585, 4838, 14, 3155, 7598, 3248, 7873, 8376] := by
  rw [show modYs 0 5 10007 16 = modYs 0 5 10007 15 ++
      [rejection_sample 10007 (sha512_256i ([0, 5, 10007] ++
        modYs 0 5 10007 15))] from rfl,
    c8Y15]
  rfl

set_option maxHeartbeats 1000000 in
theorem c8Y17 : modYs 0 5 10007 17 = [653, 4648, 3425, 1714, 7535, 4755, 8152, 5619, 7585, 4838, 14, 3155, 7598, 3248, 7873, 8376, 8580] := by
  rw [show modYs 0 5 10007 17 = modYs 0 5 10007 16 ++
      [rejection_sample 10007 (sha512_256i ([0, 5, 10007] ++
        modYs 0 5 10007 16))] from rfl,
    c8Y16]
  rfl

set_option maxHeartbeats 1000000 in
theorem c8Y18 : modYs 0 5 10007 18 = [653, 4648, 3425, 1714, 7535, 4755, 8152, 5619, 7585, 4838, 14, 3155, 7598, 3248, 7873, 8376, 8580, 4142] := by
  rw [show modYs 0 5 10007 18 = modYs 0 5 10007 17 ++
      [rejection_sample 10007 (sha512_256i ([0, 5, 10007] ++
        modYs 0 5 10007 17))] from rfl,
    c8Y17]
  rfl

set_option maxHeartbeats 1000000 in
theorem c8Y19 : modYs 0 5 10007 19 = [653, 4648, 3425, 1714, 7535, 4755, 8152, 5619, 7585, 4838, 14, 3155, 7598, 3248, 7873, 8376, 8580, 4142, 4558] := by
  rw [show modYs 0 5 10007 19 = modYs 0 5 10007 18 ++
      [rejection_sample 10007 (sha512_256i ([0, 5, 10007] ++
        modYs 0 5 10007 18))] from rfl,
    c8Y18]
  rfl

set_option maxHeartbeats 1000000 in
theorem c8Y20 : modYs 0 5 10007 20 = [653, 4648, 3425, 1714, 7535, 4755, 8152, 5619, 7585, 4838, 14, 3155, 7598, 3248, 7873, 8376, 8580, 4142, 4558, 8063] := by
  rw [show modYs 0 5 10007 20 = modYs 0 5 10007 19 ++
      [rejection_sample 10007 (sha512_256i ([0, 5, 10007] ++
        modYs 0 5 10007 19))] from rfl,
    c8Y19]
  rfl

set_option maxHeartbeats 1000000 in
theorem c8Y21 : modYs 0 5 10007 21 = [653, 4648, 3425, 1714, 7535, 4755, 8152, 5619, 7585, 4838, 14, 3155, 7598, 3248, 7873, 8376, 8580, 4142, 4558, 8063, 7065] := by
  rw [show modYs 0 5 10007 21 = modYs 0 5 10007 20 ++
      [rejection_sample 10007 (sha512_256i ([0, 5, 10007] ++
        modYs 0 5 10007 20))] from rfl,
    c8Y20]
  rfl

set_option maxHeartbeats 1000000 in
theorem c8Y22 : modYs 0 5 10007 22 = [653, 4648, 3425, 1714, 7535, 4755, 8152, 5619, 7585, 4838, 14, 3155, 7598, 3248, 7873, 8376, 8580, 4142, 4558, 8063, 7065, 4066] := by
  rw [show modYs 0 5 10007 22 = modYs 0 5 10007 21 ++
      [rejection_sample 10007 (sha512_256i ([0, 5, 10007] ++
        modYs 0 5 10007 21))] from rfl,
    c8Y21]
  rfl

set_option maxHeartbeats 1000000 in
theorem c8Y23 : modYs 0 5 10007 23 = [653, 4648, 3425, 1714, 7535, 4755, 8152, 5619, 7585, 4838, 14, 3155, 7598, 3248, 7873, 8376, 8580, 4142, 4558, 8063, 7065, 4066, 4490] := by
  rw [show modYs 0 5 10007 23 = modYs 0 5 10007 22 ++
      [rejection_sample 10007 (sha512_256i ([0, 5, 10007] ++
        modYs 0 5 10007 22))] from rfl,
    c8Y22]
  rfl

set_option maxHeartbeats 1000000 in
theorem c8Y24 : modYs 0 5 10007 24 = [653, 4648, 3425, 1714, 7535, 4755, 8152, 5619, 7585, 4838, 14, 3155, 7598, 3248, 7873, 8376, 8580, 4142, 4558, 8063, 7065, 4066, 4490, 5326] := by
  rw [show modYs 0 5 10007 24 = modYs 0 5 10007 23 ++
      [rejection_sample 10007 (sha512_256i ([0, 5, 10007] ++
        modYs 0 5 10007 23))] from rfl,
    c8Y23]
  rfl

set_option maxHeartbeats 1000000 in
theorem c8Y25 : modYs 0 5 10007 25 = [653, 4648, 3425, 1714, 7535, 4755, 8152, 5619, 7585, 4838, 14, 3155, 7598, 3248, 7873, 8376, 8580, 4142, 4558, 8063, 7065, 4066, 4490, 5326, 9574] := by
  rw [show modYs 0 5 10007 25 = modYs 0 5 10007 24 ++
      [rejection_sample 10007 (sha512_256i ([0, 5, 10007] ++
        modYs 0 5 10007 24))] from rfl,
    c8Y24]
  rfl

set_option maxHeartbeats 1000000 in
theorem c8Y26 : modYs 0 5 10007 26 = [653, 4648, 3425, 1714, 7535, 4755, 8152, 5619, 7585, 4838, 14, 3155, 7598, 3248, 7873, 8376, 8580, 4142, 4558, 8063, 7065, 4066, 4490, 5326, 9574, 5711] := by
  rw [show modYs 0 5 10007 26 = modYs 0 5 10007 25 ++
      [rejection_sample 10007 (sha512_256i ([0, 5, 10007] ++
        modYs 0 5 10007 25))] from rfl,
    c8Y25]
  rfl

set_option maxHeartbeats 1000000 in
theorem c8Y27 : modYs 0 5 10007 27 = [653, 4648, 3425, 1714, 7535, 4755, 8152, 5619, 7585, 4838, 14, 3155, 7598, 3248, 7873, 8376, 8580, 4142, 4558, 8063, 7065, 4066, 4490, 5326, 9574, 5711, 6839] := by
  rw [show modYs 0 5 10007 27 = modYs 0 5 10007 26 ++
      [rejection_sample 10007 (sha512_256i ([0, 5, 10007] ++
        modYs 0 5 10007 26))] from rfl,
    c8Y26]
  rfl

set_option maxHeartbeats 1000000 in
theorem c8Y28 : modYs 0 5 10007 28 = [653, 4648, 3425, 1714, 7535, 4755, 8152, 5619, 7585, 4838, 14, 3155, 7598, 3248, 7873, 8376, 8580, 4142, 4558, 8063, 7065, 4066, 4490, 5326, 9574, 5711, 6839, 1066] := by
  rw [show modYs 0 5 10007 28 = modYs 0 5 10007 27 ++
      [rejection_sample 10007 (sha512_256i ([0, 5, 10007] ++
        modYs 0 5 10007 27))] from rfl,
    c8Y27]
  rfl

set_option maxHeartbeats 1000000 in
theorem c8Y29 : modYs 0 5 10007 29 = [653, 4648, 3425, 1714, 7535, 4755, 8152, 5619, 7585, 4838, 14, 3155, 7598, 3248, 7873, 8376, 8580, 4142, 4558, 8063, 7065, 4066, 4490, 5326, 9574, 5711, 6839, 1066, 2398] := by
  rw [show modYs 0 5 10007 29 = modYs 0 5 10007 28 ++
      [rejection_sample 10007 (sha512_256i ([0, 5, 10007] ++
        modYs 0 5 10007 28))] from rfl,
    c8Y28]
  rfl

set_option maxHeartbeats 1000000 in
theorem c8Y30 : modYs 0 5 10007 30 = [653, 4648, 3425, 1714, 7535, 4755, 8152, 5619, 7585, 4838, 14, 3155, 7598, 3248, 7873, 8376, 8580, 4142, 4558, 8063, 7065, 4066, 4490, 5326, 9574, 5711, 6839, 1066, 2398, 6146] := by
  rw [show modYs 0 5 10007 30 = modYs 0 5 10007 29 ++
      [rejection_sample 10007 (sha512_256i ([0, 5, 10007] ++
        modYs 0 5 10007 29))] from rfl,
    c8Y29]
  rfl

set_option maxHeartbeats 1000000 in
theorem c8Y31 : modYs 0 5 10007 31 = [653, 4648, 3425, 1714, 7535, 4755, 8152, 5619, 7585, 4838, 14, 3155, 7598, 3248, 7873, 8376, 8580, 4142, 4558, 8063, 7065, 4066, 4490, 5326, 9574, 5711, 6839, 1066, 2398, 6146, 9236] := by
  rw [show modYs 0 5 10007 31 = modYs 0 5 10007 30 ++
      [rejection_sample 10007 (sha512_256i ([0, 5, 10007] ++
        modYs 0 5 10007 30))] from rfl,
    c8Y30]
  rfl

set_option maxHeartbeats 1000000 in
theorem c8Y32 : modYs 0 5 10007 32 = [653, 4648, 3425, 1714, 7535, 4755, 8152, 5619, 7585, 4838, 14, 3155, 7598, 3248, 7873, 8376, 8580, 4142, 4558, 8063, 7065, 4066, 4490, 5326, 9574, 5711, 6839, 1066, 2398, 6146, 9236, 9992] := by
  rw [show modYs 0 5 10007 32 = modYs 0 5 10007 31 ++
      [rejection_sample 10007 (sha512_256i ([0, 5, 10007] ++
        modYs 0 5 10007 31))] from rfl,
    c8Y31]
  rfl

set_option maxHeartbeats 1000000 in
theorem c8Y33 : modYs 0 5 10007 33 = [653, 4648, 3425, 1714, 7535, 4755, 8152, 5619, 7585, 4838, 14, 3155, 7598, 3248, 7873, 8376, 8580, 4142, 4558, 8063, 7065, 4066, 4490, 5326, 9574, 5711, 6839, 1066, 2398, 6146, 9236, 9992, 8328] := by
  rw [show modYs 0 5 10007 33 = modYs 0 5 10007 32 ++
      [rejection_sample 10007 (sha512_256i ([0, 5, 10007] ++
        modYs 0 5 10007 32))] from rfl,
    c8Y32]
  rfl

set_option maxHeartbeats 1000000 in
theorem c8Y34 : modYs 0 5 10007 34 = [653, 4648, 3425, 1714, 7535, 4755, 8152, 5619, 7585, 4838, 14, 3155, 7598, 3248, 7873, 8376, 8580, 4142, 4558, 8063, 7065, 4066, 4490, 5326, 9574, 5711, 6839, 1066, 2398, 6146, 9236, 9992, 8328, 4022] := by
  rw [show modYs 0 5 10007 34 = modYs 0 5 10007 33 ++
      [rejection_sample 10007 (sha512_256i ([0, 5, 10007] ++
        modYs 0 5 10007 33))] from rfl,
    c8Y33]
  rfl

set_option maxHeartbeats 1000000 in
theorem c8Y35 : modYs 0 5 10007 35 = [653, 4648, 3425, 1714, 7535, 4755, 8152, 5619, 7585, 4838, 14, 3155, 7598, 3248, 7873, 8376, 8580, 4142, 4558, 8063, 7065, 4066, 4490, 5326, 9574, 5711, 6839, 1066, 2398, 6146, 9236, 9992, 8328, 4022, 2669] := by
  rw [show modYs 0 5 10007 35 = modYs 0 5 10007 34 ++
      [rejection_sample 10007 (sha512_256i ([0, 5, 10007] ++
        modYs 0 5 10007 34))] from rfl,
    c8Y34]
  rfl

set_option maxHeartbeats 1000000 in
theorem c8Y36 : modYs 0 5 10007 36 = [653, 4648, 3425, 1714, 7535, 4755, 8152, 5619, 7585, 4838, 14, 3155, 7598, 3248, 7873, 8376, 8580, 4142, 4558, 8063, 7065, 4066, 4490, 5326, 9574, 5711, 6839, 1066, 2398, 6146, 9236, 9992, 8328, 4022, 2669, 2765] := by
  rw [show modYs 0 5 10007 36 = modYs 0 5 10007 35 ++
      [rejection_sample 10007 (sha512_256i ([0, 5, 10007] ++
        modYs 0 5 10007 35))] from rfl,
    c8Y35]
  rfl

set_option maxHeartbeats 1000000 in
theorem c8Y37 : modYs 0 5 10007 37 = [653, 4648, 3425, 1714, 7535, 4755, 8152, 5619, 7585, 4838, 14, 3155, 7598, 3248, 7873, 8376, 8580, 4142, 4558, 8063, 7065, 4066, 4490, 5326, 9574, 5711, 6839, 1066, 2398, 6146, 9236, 9992, 8328, 4022, 2669, 2765, 5139] := by
  rw [show modYs 0 5 10007 37 = modYs 0 5 10007 36 ++
      [rejection_sample 10007 (sha512_256i ([0, 5, 10007] ++
        modYs 0 5 10007 36))] from rfl,
    c8Y36]
  rfl

set_option maxHeartbeats 1000000 in
theorem c8Y38 : modYs 0 5 10007 38 = [653, 4648, 3425, 1714, 7535, 4755, 8152, 5619, 7585, 4838, 14, 3155, 7598, 3248, 7873, 8376, 8580, 4142, 4558, 8063, 7065, 4066, 4490, 5326, 9574, 5711, 6839, 1066, 2398, 6146, 9236, 9992, 8328, 4022, 2669, 2765, 5139, 9371] := by
  rw [show modYs 0 5 10007 38 = modYs 0 5 10007 37 ++
      [rejection_sample 10007 (sha512_256i ([0, 5, 10007] ++
        modYs 0 5 10007 37))] from rfl,
    c8Y37]
  rfl

set_option maxHeartbeats 1000000 in
theorem c8Y39 : modYs 0 5 10007 39 = [653, 4648, 3425, 1714, 7535, 4755, 8152, 5619, 7585, 4838, 14, 3155, 7598, 3248, 7873, 8376, 8580, 4142, 4558, 8063, 7065, 4066, 4490, 5326, 9574, 5711, 6839, 1066, 2398, 6146, 9236, 9992, 8328, 4022, 2669, 2765, 5139, 9371, 336] := by
  rw [show modYs 0 5 10007 39 = modYs 0 5 10007 38 ++
      [rejection_sample 10007 (sha512_256i ([0, 5, 10007] ++
        modYs 0 5 10007 38))] from rfl,
    c8Y38]
  rfl

set_option maxHeartbeats 1000000 in
theorem c8Y40 : modYs 0 5 10007 40 = [653, 4648, 3425, 1714, 7535, 4755, 8152, 5619, 7585, 4838, 14, 3155, 7598, 3248, 7873, 8376, 8580, 4142, 4558, 8063, 7065, 4066, 4490, 5326, 9574, 5711, 6839, 1066, 2398, 6146, 9236, 9992, 8328, 4022, 2669, 2765, 5139, 9371, 336, 7499] := by
  rw [show modYs 0 5 10007 40 = modYs 0 5 10007 39 ++
      [rejection_sample 10007 (sha512_256i ([0, 5, 10007] ++
        modYs 0 5 10007 39))] from rfl,
    c8Y39]
  rfl

set_option maxHeartbeats 1000000 in
theorem c8Y41 : modYs 0 5 10007 41 = [653, 4648, 3425, 1714, 7535, 4755, 8152, 5619, 7585, 4838, 14, 3155, 7598, 3248, 7873, 8376, 8580, 4142, 4558, 8063, 7065, 4066, 4490, 5326, 9574, 5711, 6839, 1066, 2398, 6146, 9236, 9992, 8328, 4022, 2669, 2765, 5139, 9371, 336, 7499, 1860] := by
  rw [show modYs 0 5 10007 41 = modYs 0 5 10007 40 ++
      [rejection_sample 10007 (sha512_256i ([0, 5, 10007] ++
        modYs 0 5 10007 40))] from rfl,
    c8Y40]
  rfl

set_option maxHeartbeats 1000000 in
theorem c8Y42 : modYs 0 5 10007 42 = [653, 4648, 3425, 1714, 7535, 4755, 8152, 5619, 7585, 4838, 14, 3155, 7598, 3248, 7873, 8376, 8580, 4142, 4558, 8063, 7065, 4066, 4490, 5326, 9574, 5711, 6839, 1066, 2398, 6146, 9236, 9992, 8328, 4022, 2669, 2765, 5139, 9371, 336, 7499, 1860, 1942] := by
  rw [show modYs 0 5 10007 42 = modYs 0 5 10007 41 ++
      [rejection_sample 10007 (sha512_256i ([0, 5, 10007] ++
        modYs 0 5 10007 41))] from rfl,
    c8Y41]
  rfl

set_option maxHeartbeats 1000000 in
theorem c8Y43 : modYs 0 5 10007 43 = [653, 4648, 3425, 1714, 7535, 4755, 8152, 5619, 7585, 4838, 14, 3155, 7598, 3248, 7873, 8376, 8580, 4142, 4558, 8063, 7065, 4066, 4490, 5326, 9574, 5711, 6839, 1066, 2398, 6146, 9236, 9992, 8328, 4022, 2669, 2765, 5139, 9371, 336, 7499, 1860, 1942, 7251] := by
  rw [show modYs 0 5 10007 43 = modYs 0 5 10007 42 ++
      [rejection_sample 10007 (sha512_256i ([0, 5, 10007] ++
        modYs 0 5 10007 42))] from rfl,
    c8Y42]
  rfl

set_option maxHeartbeats 1000000 in
theorem c8Y44 : modYs 0 5 10007 44 = [653, 4648, 3425, 1714, 7535, 4755, 8152, 5619, 7585, 4838, 14, 3155, 7598, 3248, 7873, 8376, 8580, 4142, 4558, 8063, 7065, 4066, 4490, 5326, 9574, 5711, 6839, 1066, 2398, 6146, 9236, 9992, 8328, 4022, 2669, 2765, 5139, 9371, 336, 7499, 1860, 1942, 7251, 886] := by
  rw [show modYs 0 5 10007 44 = modYs 0 5 10007 43 ++
      [rejection_sample 10007 (sha512_256i ([0, 5, 10007] ++
        modYs 0 5 10007 43))] from rfl,
    c8Y43]
  rfl

set_option maxHeartbeats 1000000 in
theorem c8Y45 : modYs 0 5 10007 45 = [653, 4648, 3425, 1714, 7535, 4755, 8152, 5619, 7585, 4838, 14, 3155, 7598, 3248, 7873, 8376, 8580, 4142, 4558, 8063, 7065, 4066, 4490, 5326, 9574, 5711, 6839, 1066, 2398, 6146, 9236, 9992, 8328, 4022, 2669, 2765, 5139, 9371, 336, 7499, 1860, 1942, 7251, 886, 2505] := by
  rw [show modYs 0 5 10007 45 = modYs 0 5 10007 44 ++
      [rejection_sample 10007 (sha512_256i ([0, 5, 10007] ++
        modYs 0 5 10007 44))] from rfl,
    c8Y44]
  rfl

set_option maxHeartbeats 1000000 in
theorem c8Y46 : modYs 0 5 10007 46 = [653, 4648, 3425, 1714, 7535, 4755, 8152, 5619, 7585, 4838, 14, 3155, 7598, 3248, 7873, 8376, 8580, 4142, 4558, 8063, 7065, 4066, 4490, 5326, 9574, 5711, 6839, 1066, 2398, 6146, 9236, 9992, 8328, 4022, 2669, 2765, 5139, 9371, 336, 7499, 1860, 1942, 7251, 886, 2505, 449] := by
  rw [show modYs 0 5 10007 46 = modYs 0 5 10007 45 ++
      [rejection_sample 10007 (sha512_256i ([0, 5, 10007] ++
        modYs 0 5 10007 45))] from rfl,
    c8Y45]
  rfl

set_option maxHeartbeats 1000000 in
theorem c8Y47 : modYs 0 5 10007 47 = [653, 4648, 3425, 1714, 7535, 4755, 8152, 5619, 7585, 4838, 14, 3155, 7598, 3248, 7873, 8376, 8580, 4142, 4558, 8063, 7065, 4066, 4490, 5326, 9574, 5711, 6839, 1066, 2398, 6146, 9236, 9992, 8328, 4022, 2669, 2765, 5139, 9371, 336, 7499, 1860, 1942, 7251, 886, 2505, 449, 7137] := by
  rw [show modYs 0 5 10007 47 = modYs 0 5 10007 46 ++
      [rejection_sample 10007 (sha512_256i ([0, 5, 10007] ++
        modYs 0 5 10007 46))] from rfl,
    c8Y46]
  rfl

set_option maxHeartbeats 1000000 in
theorem c8Y48 : modYs 0 5 10007 48 = [653, 4648, 3425, 1714, 7535, 4755, 8152, 5619, 7585, 4838, 14, 3155, 7598, 3248, 7873, 8376, 8580, 4142, 4558, 8063, 7065, 4066, 4490, 5326, 9574, 5711, 6839, 1066, 2398, 6146, 9236, 9992, 8328, 4022, 2669, 2765, 5139, 9371, 336, 7499, 1860, 1942, 7251, 886, 2505, 449, 7137, 2887] := by
  rw [show modYs 0 5 10007 48 = modYs 0 5 10007 47 ++
      [rejection_sample 10007 (sha512_256i ([0, 5, 10007] ++
        modYs 0 5 10007 47))] from rfl,
    c8Y47]
  rfl

set_option maxHeartbeats 1000000 in
theorem c8Y49 : modYs 0 5 10007 49 = [653, 4648, 3425, 1714, 7535, 4755, 8152, 5619, 7585, 4838, 14, 3155, 7598, 3248, 7873, 8376, 8580, 4142, 4558, 8063, 7065, 4066, 4490, 5326, 9574, 5711, 6839, 1066, 2398, 6146, 9236, 9992, 8328, 4022, 2669, 2765, 5139, 9371, 336, 7499, 1860, 1942, 7251, 886, 2505, 449, 7137, 2887, 1088] := by
  rw [show modYs 0 5 10007 49 = modYs 0 5 10007 48 ++
      [rejection_sample 10007 (sha512_256i ([0, 5, 10007] ++
        modYs 0 5 10007 48))] from rfl,
    c8Y48]
  rfl

set_option maxHeartbeats 1000000 in
theorem c8Y50 : modYs 0 5 10007 50 = [653, 4648, 3425, 1714, 7535, 4755, 8152, 5619, 7585, 4838, 14, 3155, 7598, 3248, 7873, 8376, 8580, 4142, 4558, 8063, 7065, 4066, 4490, 5326, 9574, 5711, 6839, 1066, 2398, 6146, 9236, 9992, 8328, 4022, 2669, 2765, 5139, 9371, 336, 7499, 1860, 1942, 7251, 886, 2505, 449, 7137, 2887, 1088, 6661] := by
  rw [show modYs 0 5 10007 50 = modYs 0 5 10007 49 ++
      [rejection_sample 10007 (sha512_256i ([0, 5, 10007] ++
        modYs 0 5 10007 49))] from rfl,
    c8Y49]
  rfl

set_option maxHeartbeats 1000000 in
theorem c8Y51 : modYs 0 5 10007 51 = [653, 4648, 3425, 1714, 7535, 4755, 8152, 5619, 7585, 4838, 14, 3155, 7598, 3248, 7873, 8376, 8580, 4142, 4558, 8063, 7065, 4066, 4490, 5326, 9574, 5711, 6839, 1066, 2398, 6146, 9236, 9992, 8328, 4022, 2669, 2765, 5139, 9371, 336, 7499, 1860, 1942, 7251, 886, 2505, 449, 7137, 2887, 1088, 6661, 829] := by
  rw [show modYs 0 5 10007 51 = modYs 0 5 10007 50 ++
      [rejection_sample 10007 (sha512_256i ([0, 5, 10007] ++
        modYs 0 5 10007 50))] from rfl,
    c8Y50]
  rfl

set_option maxHeartbeats 1000000 in
theorem c8Y52 : modYs 0 5 10007 52 = [653, 4648, 3425, 1714, 7535, 4755, 8152, 5619, 7585, 4838, 14, 3155, 7598, 3248, 7873, 8376, 8580, 4142, 4558, 8063, 7065, 4066, 4490, 5326, 9574, 5711, 6839, 1066, 2398, 6146, 9236, 9992, 8328, 4022, 2669, 2765, 5139, 9371, 336, 7499, 1860, 1942, 7251, 886, 2505, 449, 7137, 2887, 1088, 6661, 829, 2800] := by
  rw [show modYs 0 5 10007 52 = modYs 0 5 10007 51 ++
      [rejection_sample 10007 (sha512_256i ([0, 5, 10007] ++
        modYs 0 5 10007 51))] from rfl,
    c8Y51]
  rfl

set_option maxHeartbeats 1000000 in
theorem c8Y53 : modYs 0 5 10007 53 = [653, 4648, 3425, 1714, 7535, 4755, 8152, 5619, 7585, 4838, 14, 3155, 7598, 3248, 7873, 8376, 8580, 4142, 4558, 8063, 7065, 4066, 4490, 5326, 9574, 5711, 6839, 1066, 2398, 6146, 9236, 9992, 8328, 4022, 2669, 2765, 5139, 9371, 336, 7499, 1860, 1942, 7251, 886, 2505, 449, 7137, 2887, 1088, 6661, 829, 2800, 2044] := by
  rw [show modYs 0 5 10007 53 = modYs 0 5 10007 52 ++
      [rejection_sample 10007 (sha512_256i ([0, 5, 10007] ++
        modYs 0 5 10007 52))] from rfl,
    c8Y52]
  rfl

set_option maxHeartbeats 1000000 in
theorem c8Y54 : modYs 0 5 10007 54 = [653, 4648, 3425, 1714, 7535, 4755, 8152, 5619, 7585, 4838, 14, 3155, 7598, 3248, 7873, 8376, 8580, 4142, 4558, 8063, 7065, 4066, 4490, 5326, 9574, 5711, 6839, 1066, 2398, 6146, 9236, 9992, 8328, 4022, 2669, 2765, 5139, 9371, 336, 7499, 1860, 1942, 7251, 886, 2505, 449, 7137, 2887, 1088, 6661, 829, 2800, 2044, 4418] := by
  rw [show modYs 0 5 10007 54 = modYs 0 5 10007 53 ++
      [rejection_sample 10007 (sha512_256i ([0, 5, 10007] ++
        modYs 0 5 10007 53))] from rfl,
    c8Y53]
  rfl

set_option maxHeartbeats 1000000 in
theorem c8Y55 : modYs 0 5 10007 55 = [653, 4648, 3425, 1714, 7535, 4755, 8152, 5619, 7585, 4838, 14, 3155, 7598, 3248, 7873, 8376, 8580, 4142, 4558, 8063, 7065, 4066, 4490, 5326, 9574, 5711, 6839, 1066, 2398, 6146, 9236, 9992, 8328, 4022, 2669, 2765, 5139, 9371, 336, 7499, 1860, 1942, 7251, 886, 2505, 449, 7137, 2887, 1088, 6661, 829, 2800, 2044, 4418, 1245] := by
  rw [show modYs 0 5 10007 55 = modYs 0 5 10007 54 ++
      [rejection_sample 10007 (sha512_256i ([0, 5, 10007] ++
        modYs 0 5 10007 54))] from rfl,
    c8Y54]
  rfl

set_option maxHeartbeats 1000000 in
theorem c8Y56 : modYs 0 5 10007 56 = [653, 4648, 3425, 1714, 7535, 4755, 8152, 5619, 7585, 4838, 14, 3155, 7598, 3248, 7873, 8376, 8580, 4142, 4558, 8063, 7065, 4066, 4490, 5326, 9574, 5711, 6839, 1066, 2398, 6146, 9236, 9992, 8328, 4022, 2669, 2765, 5139, 9371, 336, 7499, 1860, 1942, 7251, 886, 2505, 449, 7137, 2887, 1088, 6661, 829, 2800, 2044, 4418, 1245, 2809] := by
  rw [show modYs 0 5 10007 56 = modYs 0 5 10007 55 ++
      [rejection_sample 10007 (sha512_256i ([0, 5, 10007] ++
        modYs 0 5 10007 55))] from rfl,
    c8Y55]
  rfl

set_option maxHeartbeats 1000000 in
theorem c8Y57 : modYs 0 5 10007 57 = [653, 4648, 3425, 1714, 7535, 4755, 8152, 5619, 7585, 4838, 14, 3155, 7598, 3248, 7873, 8376, 8580, 4142, 4558, 8063, 7065, 4066, 4490, 5326, 9574, 5711, 6839, 1066, 2398, 6146, 9236, 9992, 8328, 4022, 2669, 2765, 5139, 9371, 336, 7499, 1860, 1942, 7251, 886, 2505, 449, 7137, 2887, 1088, 6661, 829, 2800, 2044, 4418, 1245, 2809, 6626] := by
  rw [show modYs 0 5 10007 57 = modYs 0 5 10007 56 ++
      [rejection_sample 10007 (sha512_256i ([0, 5, 10007] ++
        modYs 0 5 10007 56))] from rfl,
    c8Y56]
  rfl

set_option maxHeartbeats 1000000 in
theorem c8Y58 : modYs 0 5 10007 58 = [653, 4648, 3425, 1714, 7535, 4755, 8152, 5619, 7585, 4838, 14, 3155, 7598, 3248, 7873, 8376, 8580, 4142, 4558, 8063, 7065, 4066, 4490, 5326, 9574, 5711, 6839, 1066, 2398, 6146, 9236, 9992, 8328, 4022, 2669, 2765, 5139, 9371, 336, 7499, 1860, 1942, 7251, 886, 2505, 449, 7137, 2887, 1088, 6661, 829, 2800, 2044, 4418, 1245, 2809, 6626, 3364] := by
  rw [show modYs 0 5 10007 58 = modYs 0 5 10007 57 ++
      [rejection_sample 10007 (sha512_256i ([0, 5, 10007] ++
        modYs 0 5 10007 57))] from rfl,
    c8Y57]
  rfl

set_option maxHeartbeats 1000000 in
theorem c8Y59 : modYs 0 5 10007 59 = [653, 4648, 3425, 1714, 7535, 4755, 8152, 5619, 7585, 4838, 14, 3155, 7598, 3248, 7873, 8376, 8580, 4142, 4558, 8063, 7065, 4066, 4490, 5326, 9574, 5711, 6839, 1066, 2398, 6146, 9236, 9992, 8328, 4022, 2669, 2765, 5139, 9371, 336, 7499, 1860, 1942, 7251, 886, 2505, 449, 7137, 2887, 1088, 6661, 829, 2800, 2044, 4418, 1245, 2809, 6626, 3364, 439] := by
  rw [show modYs 0 5 10007 59 = modYs 0 5 10007 58 ++
      [rejection_sample 10007 (sha512_256i ([0, 5, 10007] ++
        modYs 0 5 10007 58))] from rfl,
    c8Y58]
  rfl

set_option maxHeartbeats 1000000 in
theorem c8Y60 : modYs 0 5 10007 60 = [653, 4648, 3425, 1714, 7535, 4755, 8152, 5619, 7585, 4838, 14, 3155, 7598, 3248, 7873, 8376, 8580, 4142, 4558, 8063, 7065, 4066, 4490, 5326, 9574, 5711, 6839, 1066, 2398, 6146, 9236, 9992, 8328, 4022, 2669, 2765, 5139, 9371, 336, 7499, 1860, 1942, 7251, 886, 2505, 449, 7137, 2887, 1088, 6661, 829, 2800, 2044, 4418, 1245, 2809, 6626, 3364, 439, 3198] := by
  rw [show modYs 0 5 10007 60 = modYs 0 5 10007 59 ++
      [rejection_sample 10007 (sha512_256i ([0, 5, 10007] ++
        modYs 0 5 10007 59))] from rfl,
    c8Y59]
  rfl

set_option maxHeartbeats 1000000 in
theorem c8Y61 : modYs 0 5 10007 61 = [653, 4648, 3425, 1714, 7535, 4755, 8152, 5619, 7585, 4838, 14, 3155, 7598, 3248, 7873, 8376, 8580, 4142, 4558, 8063, 7065, 4066, 4490, 5326, 9574, 5711, 6839, 1066, 2398, 6146, 9236, 9992, 8328, 4022, 2669, 2765, 5139, 9371, 336, 7499, 1860, 1942, 7251, 886, 2505, 449, 7137, 2887, 1088, 6661, 829, 2800, 2044, 4418, 1245, 2809, 6626, 3364, 439, 3198, 5531] := by
  rw [show modYs 0 5 10007 61 = modYs 0 5 10007 60 ++
      [rejection_sample 10007 (sha512_256i ([0, 5, 10007] ++
        modYs 0 5 10007 60))] from rfl,
    c8Y60]
  rfl

set_option maxHeartbeats 1000000 in
theorem c8Y62 : modYs 0 5 10007 62 = [653, 4648, 3425, 1714, 7535, 4755, 8152, 5619, 7585, 4838, 14, 3155, 7598, 3248, 7873, 8376, 8580, 4142, 4558, 8063, 7065, 4066, 4490, 5326, 9574, 5711, 6839, 1066, 2398, 6146, 9236, 9992, 8328, 4022, 2669, 2765, 5139, 9371, 336, 7499, 1860, 1942, 7251, 886, 2505, 449, 7137, 2887, 1088, 6661, 829, 2800, 2044, 4418, 1245, 2809, 6626, 3364, 439, 3198, 5531, 5306] := by
  rw [show modYs 0 5 10007 62 = modYs 0 5 10007 61 ++
      [rejection_sample 10007 (sha512_256i ([0, 5, 10007] ++
        modYs 0 5 10007 61))] from rfl,
    c8Y61]
  rfl

set_option maxHeartbeats 1000000 in
theorem c8Y63 : modYs 0 5 10007 63 = [653, 4648, 3425, 1714, 7535, 4755, 8152, 5619, 7585, 4838, 14, 3155, 7598, 3248, 7873, 8376, 8580, 4142, 4558, 8063, 7065, 4066, 4490, 5326, 9574, 5711, 6839, 1066, 2398, 6146, 9236, 9992, 8328, 4022, 2669, 2765, 5139, 9371, 336, 7499, 1860, 1942, 7251, 886, 2505, 449, 7137, 2887, 1088, 6661, 829, 2800, 2044, 4418, 1245, 2809, 6626, 3364, 439, 3198, 5531, 5306, 1495] := by
  rw [show modYs 0 5 10007 63 = modYs 0 5 10007 62 ++
      [rejection_sample 10007 (sha512_256i ([0, 5, 10007] ++
        modYs 0 5 10007 62))] from rfl,
    c8Y62]
  rfl

set_option maxHeartbeats 1000000 in
theorem c8Y64 : modYs 0 5 10007 64 = [653, 4648, 3425, 1714, 7535, 4755, 8152, 5619, 7585, 4838, 14, 3155, 7598, 3248, 7873, 8376, 8580, 4142, 4558, 8063, 7065, 4066, 4490, 5326, 9574, 5711, 6839, 1066, 2398, 6146, 9236, 9992, 8328, 4022, 2669, 2765, 5139, 9371, 336, 7499, 1860, 1942, 7251, 886, 2505, 449, 7137, 2887, 1088, 6661, 829, 2800, 2044, 4418, 1245, 2809, 6626, 3364, 439, 3198, 5531, 5306, 1495, 4187] := by
  rw [show modYs 0 5 10007 64 = modYs 0 5 10007 63 ++
      [rejection_sample 10007 (sha512_256i ([0, 5, 10007] ++
        modYs 0 5 10007 63))] from rfl,
    c8Y63]
  rfl

set_option maxHeartbeats 1000000 in
theorem c8Y65 : modYs 0 5 10007 65 = [653, 4648, 3425, 1714, 7535, 4755, 8152, 5619, 7585, 4838, 14, 3155, 7598, 3248, 7873, 8376, 8580, 4142, 4558, 8063, 7065, 4066, 4490, 5326, 9574, 5711, 6839, 1066, 2398, 6146, 9236, 9992, 8328, 4022, 2669, 2765, 5139, 9371, 336, 7499, 1860, 1942, 7251, 886, 2505, 449, 7137, 2887, 1088, 6661, 829, 2800, 2044, 4418, 1245, 2809, 6626, 3364, 439, 3198, 5531, 5306, 1495, 4187, 2347] := by
  rw [show modYs 0 5 10007 65 = modYs 0 5 10007 64 ++
      [rejection_sample 10007 (sha512_256i ([0, 5, 10007] ++
        modYs 0 5 10007 64))] from rfl,
    c8Y64]
  rfl

set_option maxHeartbeats 1000000 in
theorem c8Y66 : modYs 0 5 10007 66 = [653, 4648, 3425, 1714, 7535, 4755, 8152, 5619, 7585, 4838, 14, 3155, 7598, 3248, 7873, 8376, 8580, 4142, 4558, 8063, 7065, 4066, 4490, 5326, 9574, 5711, 6839, 1066, 2398, 6146, 9236, 9992, 8328, 4022, 2669, 2765, 5139, 9371, 336, 7499, 1860, 1942, 7251, 886, 2505, 449, 7137, 2887, 1088, 6661, 829, 2800, 2044, 4418, 1245, 2809, 6626, 3364, 439, 3198, 5531, 5306, 1495, 4187, 2347, 7146] := by
  rw [show modYs 0 5 10007 66 = modYs 0 5 10007 65 ++
      [rejection_sample 10007 (sha512_256i ([0, 5, 10007] ++
        modYs 0 5 10007 65))] from rfl,
    c8Y65]
  rfl

set_option maxHeartbeats 1000000 in
theorem c8Y67 : modYs 0 5 10007 67 = [653, 4648, 3425, 1714, 7535, 4755, 8152, 5619, 7585, 4838, 14, 3155, 7598, 3248, 7873, 8376, 8580, 4142, 4558, 8063, 7065, 4066, 4490, 5326, 9574, 5711, 6839, 1066, 2398, 6146, 9236, 9992, 8328, 4022, 2669, 2765, 5139, 9371, 336, 7499, 1860, 1942, 7251, 886, 2505, 449, 7137, 2887, 1088, 6661, 829, 2800, 2044, 4418, 1245, 2809, 6626, 3364, 439, 3198, 5531, 5306, 1495, 4187, 2347, 7146, 6823] := by
  rw [show modYs 0 5 10007 67 = modYs 0 5 10007 66 ++
      [rejection_sample 10007 (sha512_256i ([0, 5, 10007] ++
        modYs 0 5 10007 66))] from rfl,
    c8Y66]
  rfl

set_option maxHeartbeats 1000000 in
theorem c8Y68 : modYs 0 5 10007 68 = [653, 4648, 3425, 1714, 7535, 4755, 8152, 5619, 7585, 4838, 14, 3155, 7598, 3248, 7873, 8376, 8580, 4142, 4558, 8063, 7065, 4066, 4490, 5326, 9574, 5711, 6839, 1066, 2398, 6146, 9236, 9992, 8328, 4022, 2669, 2765, 5139, 9371, 336, 7499, 1860, 1942, 7251, 886, 2505, 449, 7137, 2887, 1088, 6661, 829, 2800, 2044, 4418, 1245, 2809, 6626, 3364, 439, 3198, 5531, 5306, 1495, 4187, 2347, 7146, 6823, 8032] := by
  rw [show modYs 0 5 10007 68 = modYs 0 5 10007 67 ++
      [rejection_sample 10007 (sha512_256i ([0, 5, 10007] ++
        modYs 0 5 10007 67))] from rfl,
    c8Y67]
  rfl

set_option maxHeartbeats 1000000 in
theorem c8Y69 : modYs 0 5 10007 69 = [653, 4648, 3425, 1714, 7535, 4755, 8152, 5619, 7585, 4838, 14, 3155, 7598, 3248, 7873, 8376, 8580, 4142, 4558, 8063, 7065, 4066, 4490, 5326, 9574, 5711, 6839, 1066, 2398, 6146, 9236, 9992, 8328, 4022, 2669, 2765, 5139, 9371, 336, 7499, 1860, 1942, 7251, 886, 2505, 449, 7137, 2887, 1088, 6661, 829, 2800, 2044, 4418, 1245, 2809, 6626, 3364, 439, 3198, 5531, 5306, 1495, 4187, 2347, 7146, 6823, 8032, 4197] := by
  rw [show modYs 0 5 10007 69 = modYs 0 5 10007 68 ++
      [rejection_sample 10007 (sha512_256i ([0, 5, 10007] ++
        modYs 0 5 10007 68))] from rfl,
    c8Y68]
  rfl

set_option maxHeartbeats 1000000 in
theorem c8Y70 : modYs 0 5 10007 70 = [653, 4648, 3425, 1714, 7535, 4755, 8152, 5619, 7585, 4838, 14, 3155, 7598, 3248, 7873, 8376, 8580, 4142, 4558, 8063, 7065, 4066, 4490, 5326, 9574, 5711, 6839, 1066, 2398, 6146, 9236, 9992, 8328, 4022, 2669, 2765, 5139, 9371, 336, 7499, 1860, 1942, 7251, 886, 2505, 449, 7137, 2887, 1088, 6661, 829, 2800, 2044, 4418, 1245, 2809, 6626, 3364, 439, 3198, 5531, 5306, 1495, 4187, 2347, 7146, 6823, 8032, 4197, 2631] := by
  rw [show modYs 0 5 10007 70 = modYs 0 5 10007 69 ++
      [rejection_sample 10007 (sha512_256i ([0, 5, 10007] ++
        modYs 0 5 10007 69))] from rfl,
    c8Y69]
  rfl

set_option maxHeartbeats 1000000 in
theorem c8Y71 : modYs 0 5 10007 71 = [653, 4648, 3425, 1714, 7535, 4755, 8152, 5619, 7585, 4838, 14, 3155, 7598, 3248, 7873, 8376, 8580, 4142, 4558, 8063, 7065, 4066, 4490, 5326, 9574, 5711, 6839, 1066, 2398, 6146, 9236, 9992, 8328, 4022, 2669, 2765, 5139, 9371, 336, 7499, 1860, 1942, 7251, 886, 2505, 449, 7137, 2887, 1088, 6661, 829, 2800, 2044, 4418, 1245, 2809, 6626, 3364, 439, 3198, 5531, 5306, 1495, 4187, 2347, 7146, 6823, 8032, 4197, 2631, 2716] := by
  rw [show modYs 0 5 10007 71 = modYs 0 5 10007 70 ++
      [rejection_sample 10007 (sha512_256i ([0, 5, 10007] ++
        modYs 0 5 10007 70))] from rfl,
    c8Y70]
  rfl

set_option maxHeartbeats 1000000 in
theorem c8Y72 : modYs 0 5 10007 72 = [653, 4648, 3425, 1714, 7535, 4755, 8152, 5619, 7585, 4838, 14, 3155, 7598, 3248, 7873, 8376, 8580, 4142, 4558, 8063, 7065, 4066, 4490, 5326, 9574, 5711, 6839, 1066, 2398, 6146, 9236, 9992, 8328, 4022, 2669, 2765, 5139, 9371, 336, 7499, 1860, 1942, 7251, 886, 2505, 449, 7137, 2887, 1088, 6661, 829, 2800, 2044, 4418, 1245, 2809, 6626, 3364, 439, 3198, 5531, 5306, 1495, 4187, 2347, 7146, 6823, 8032, 4197, 2631, 2716, 7314] := by
  rw [show modYs 0 5 10007 72 = modYs 0 5 10007 71 ++
      [rejection_sample 10007 (sha512_256i ([0, 5, 10007] ++
        modYs 0 5 10007 71))] from rfl,
    c8Y71]
  rfl

set_option maxHeartbeats 1000000 in
theorem c8Y73 : modYs 0 5 10007 73 = [653, 4648, 3425, 1714, 7535, 4755, 8152, 5619, 7585, 4838, 14, 3155, 7598, 3248, 7873, 8376, 8580, 4142, 4558, 8063, 7065, 4066, 4490, 5326, 9574, 5711, 6839, 1066, 2398, 6146, 9236, 9992, 8328, 4022, 2669, 2765, 5139, 9371, 336, 7499, 1860, 1942, 7251, 886, 2505, 449, 7137, 2887, 1088, 6661, 829, 2800, 2044, 4418, 1245, 2809, 6626, 3364, 439, 3198, 5531, 5306, 1495, 4187, 2347, 7146, 6823, 8032, 4197, 2631, 2716, 7314, 547] := by
  rw [show modYs 0 5 10007 73 = modYs 0 5 10007 72 ++
      [rejection_sample 10007 (sha512_256i ([0, 5, 10007] ++
        modYs 0 5 10007 72))] from rfl,
    c8Y72]
  rfl

set_option maxHeartbeats 1000000 in
theorem c8Y74 : modYs 0 5 10007 74 = [653, 4648, 3425, 1714, 7535, 4755, 8152, 5619, 7585, 4838, 14, 3155, 7598, 3248, 7873, 8376, 8580, 4142, 4558, 8063, 7065, 4066, 4490, 5326, 9574, 5711, 6839, 1066, 2398, 6146, 9236, 9992, 8328, 4022, 2669, 2765, 5139, 9371, 336, 7499, 1860, 1942, 7251, 886, 2505, 449, 7137, 2887, 1088, 6661, 829, 2800, 2044, 4418, 1245, 2809, 6626, 3364, 439, 3198, 5531, 5306, 1495, 4187, 2347, 7146, 6823, 8032, 4197, 2631, 2716, 7314, 547, 846] := by
  rw [show modYs 0 5 10007 74 = modYs 0 5 10007 73 ++
      [rejection_sample 10007 (sha512_256i ([0, 5, 10007] ++
        modYs 0 5 10007 73))] from rfl,
    c8Y73]
  rfl

set_option maxHeartbeats 1000000 in
theorem c8Y75 : modYs 0 5 10007 75 = [653, 4648, 3425, 1714, 7535, 4755, 8152, 5619, 7585, 4838, 14, 3155, 7598, 3248, 7873, 8376, 8580, 4142, 4558, 8063, 7065, 4066, 4490, 5326, 9574, 5711, 6839, 1066, 2398, 6146, 9236, 9992, 8328, 4022, 2669, 2765, 5139, 9371, 336, 7499, 1860, 1942, 7251, 886, 2505, 449, 7137, 2887, 1088, 6661, 829, 2800, 2044, 4418, 1245, 2809, 6626, 3364, 439, 3198, 5531, 5306, 1495, 4187, 2347, 7146, 6823, 8032, 4197, 2631, 2716, 7314, 547, 846, 444] := by
  rw [show modYs 0 5 10007 75 = modYs 0 5 10007 74 ++
      [rejection_sample 10007 (sha512_256i ([0, 5, 10007] ++
        modYs 0 5 10007 74))] from rfl,
    c8Y74]
  rfl

set_option maxHeartbeats 1000000 in
theorem c8Y76 : modYs 0 5 10007 76 = [653, 4648, 3425, 1714, 7535, 4755, 8152, 5619, 7585, 4838, 14, 3155, 7598, 3248, 7873, 8376, 8580, 4142, 4558, 8063, 7065, 4066, 4490, 5326, 9574, 5711, 6839, 1066, 2398, 6146, 9236, 9992, 8328, 4022, 2669, 2765, 5139, 9371, 336, 7499, 1860, 1942, 7251, 886, 2505, 449, 7137, 2887, 1088, 6661, 829, 2800, 2044, 4418, 1245, 2809, 6626, 3364, 439, 3198, 5531, 5306, 1495, 4187, 2347, 7146, 6823, 8032, 4197, 2631, 2716, 7314, 547, 846, 444, 8796] := by
  rw [show modYs 0 5 10007 76 = modYs 0 5 10007 75 ++
      [rejection_sample 10007 (sha512_256i ([0, 5, 10007] ++
        modYs 0 5 10007 75))] from rfl,
    c8Y75]
  rfl

set_option maxHeartbeats 1000000 in
theorem c8Y77 : modYs 0 5 10007 77 = [653, 4648, 3425, 1714, 7535, 4755, 8152, 5619, 7585, 4838, 14, 3155, 7598, 3248, 7873, 8376, 8580, 4142, 4558, 8063, 7065, 4066, 4490, 5326, 9574, 5711, 6839, 1066, 2398, 6146, 9236, 9992, 8328, 4022, 2669, 2765, 5139, 9371, 336, 7499, 1860, 1942, 7251, 886, 2505, 449, 7137, 2887, 1088, 6661, 829, 2800, 2044, 4418, 1245, 2809, 6626, 3364, 439, 3198, 5531, 5306, 1495, 4187, 2347, 7146, 6823, 8032, 4197, 2631, 2716, 7314, 547, 846, 444, 8796, 1391] := by
  rw [show modYs 0 5 10007 77 = modYs 0 5 10007 76 ++
      [rejection_sample 10007 (sha512_256i ([0, 5, 10007] ++
        modYs 0 5 10007 76))] from rfl,
    c8Y76]
  rfl

set_option maxHeartbeats 1000000 in
theorem c8Y78 : modYs 0 5 10007 78 = [653, 4648, 3425, 1714, 7535, 4755, 8152, 5619, 7585, 4838, 14, 3155, 7598, 3248, 7873, 8376, 8580, 4142, 4558, 8063, 7065, 4066, 4490, 5326, 9574, 5711, 6839, 1066, 2398, 6146, 9236, 9992, 8328, 4022, 2669, 2765, 5139, 9371, 336, 7499, 1860, 1942, 7251, 886, 2505, 449, 7137, 2887, 1088, 6661, 829, 2800, 2044, 4418, 1245, 2809, 6626, 3364, 439, 3198, 5531, 5306, 1495, 4187, 2347, 7146, 6823, 8032, 4197, 2631, 2716, 7314, 547, 846, 444, 8796, 1391, 5360] := by
  rw [show modYs 0 5 10007 78 = modYs 0 5 10007 77 ++
      [rejection_sample 10007 (sha512_256i ([0, 5, 10007] ++
        modYs 0 5 10007 77))] from rfl,
    c8Y77]
  rfl

set_option maxHeartbeats 1000000 in
theorem c8Y79 : modYs 0 5 10007 79 = [653, 4648, 3425, 1714, 7535, 4755, 8152, 5619, 7585, 4838, 14, 3155, 7598, 3248, 7873, 8376, 8580, 4142, 4558, 8063, 7065, 4066, 4490, 5326, 9574, 5711, 6839, 1066, 2398, 6146, 9236, 9992, 8328, 4022, 2669, 2765, 5139, 9371, 336, 7499, 1860, 1942, 7251, 886, 2505, 449, 7137, 2887, 1088, 6661, 829, 2800, 2044, 4418, 1245, 2809, 6626, 3364, 439, 3198, 5531, 5306, 1495, 4187, 2347, 7146, 6823, 8032, 4197, 2631, 2716, 7314, 547, 846, 444, 8796, 1391, 5360, 6040] := by
  rw [show modYs 0 5 10007 79 = modYs 0 5 10007 78 ++
      [rejection_sample 10007 (sha512_256i ([0, 5, 10007] ++
        modYs 0 5 10007 78))] from rfl,
    c8Y78]
  rfl

set_option maxHeartbeats 1000000 in
theorem c8Y80 : modYs 0 5 10007 80 = [653, 4648, 3425, 1714, 7535, 4755, 8152, 5619, 7585, 4838, 14, 3155, 7598, 3248, 7873, 8376, 8580, 4142, 4558, 8063, 7065, 4066, 4490, 5326, 9574, 5711, 6839, 1066, 2398, 6146, 9236, 9992, 8328, 4022, 2669, 2765, 5139, 9371, 336, 7499, 1860, 1942, 7251, 886, 2505, 449, 7137, 2887, 1088, 6661, 829, 2800, 2044, 4418, 1245, 2809, 6626, 3364, 439, 3198, 5531, 5306, 1495, 4187, 2347, 7146, 6823, 8032, 4197, 2631, 2716, 7314, 547, 846, 444, 8796, 1391, 5360, 6040, 3567] := by
  rw [show modYs 0 5 10007 80 = modYs 0 5 10007 79 ++
      [rejection_sample 10007 (sha512_256i ([0, 5, 10007] ++
        modYs 0 5 10007 79))] from rfl,
    c8Y79]
  rfl

set_option maxHeartbeats 8000000 in
/-- The forged proof passes `ProofMod.verify` (checked by kernel
reduction, with the challenge values taken from the lemmas above). -/
theorem c8Proof_accepted : proofModVerify 0 c8N c8Proof = true := by
  unfold proofModVerify
  rw [show c8N = 10007 from rfl, show c8Proof.W = 5 from rfl,
    show modIterations = 80 from rfl, c8Y80]
  rfl

/-- C8 counterexample: `ProofMod.verify` accepts the proof `c8Proof` for
the prime modulus `N = 10007`, so "verify returns false for every proof
when `N` is prime" fails on the code: the verifier's checks are all
satisfiable when `N` is a prime congruent to `3 mod 4`. -/
theorem C8_counterexample_prime_modulus_accepted :
    Nat.Prime c8N ∧ proofModVerify 0 c8N c8Proof = true := by
  constructor
  · norm_num [c8N]
  · exact c8Proof_accepted

/-- Helper: a closed witness for the amended C8 statement, instantiated
at the accepting proof `c8Proof`. -/
theorem C8_mod_verify_choice_bits_witness :
    (8 * modIterations < bitLen c8Proof.A ∧
      bitLen c8Proof.A ≤ 8 * (modIterations + 1)) ∧
    (8 * modIterations < bitLen c8Proof.B ∧
      bitLen c8Proof.B ≤ 8 * (modIterations + 1)) ∧
    ∀ i, i < modIterations →
      ((c8Proof.A >>> (8 * (modIterations - 1 - i))) &&& 255 = 0 ∨
        (c8Proof.A >>> (8 * (modIterations - 1 - i))) &&& 255 = 1) ∧
      ((c8Proof.B >>> (8 * (modIterations - 1 - i))) &&& 255 = 0 ∨
        (c8Proof.B >>> (8 * (modIterations - 1 - i))) &&& 255 = 1) :=
  C8_mod_verify_choice_bits 0 c8N c8Proof c8Proof_accepted

set_option maxHeartbeats 1600000 in
/-- C3 (amended): MtA additive-share identity with unreduced beta.  For
a session id `ssid`, scalars `gamma_i`, `k_j` below the curve order `q`
with `gamma_i` non-zero, a Paillier key for party j with
`N_j > q^5 + q^2` and `K_j = Enc_j(k_j)`, non-zero Ring-Pedersen
parameters, and a non-zero sampled `beta_neg` (on any zero argument the
Aff-g prover's guard raises `ValueError` instead), `new_mta` samples
`beta_neg = rejection_sample(q^5, ssid)` in `[0, q^5)`, returns
`beta = q^5 - beta_neg` unreduced, and party j's decryption
`alpha = Dec_j(Dji)` satisfies `alpha + beta = gamma_i * k_j (mod q)`. -/
theorem C3_mta_share_identity
    (ssid q gamma_i k_j bits p1 p2 Ni NCap s t rho sij rij Kj : Nat)
    (hkey : IsGeneratedKeyPair bits p1 p2)
    (hq : 2 ≤ q) (hgam : gamma_i < q) (hgam0 : 0 < gamma_i) (hkj : k_j < q)
    (hNj : q ^ 5 + q ^ 2 < p1 * p2)
    (hNCap : 0 < NCap) (hs : 0 < s) (ht : 0 < t)
    (hbneg0 : rejection_sample (q ^ 5) ssid ≠ 0)
    (hrho : 0 < rho ∧ rho < p1 * p2 ∧ Nat.gcd rho (p1 * p2) = 1)
    (hsij : 0 < sij ∧ sij < p1 * p2 ∧ Nat.gcd sij (p1 * p2) = 1)
    (hrij : 0 < rij ∧ rij < Ni ∧ Nat.gcd rij Ni = 1)
    (hKj : encrypt_with_randomness (p1 * p2) k_j rho = .ok Kj) :
    ∃ out, new_mta ssid q Kj gamma_i (p1 * p2) Ni NCap s t sij rij =
        .ok out ∧
      rejection_sample (q ^ 5) ssid < q ^ 5 ∧
      out.beta = q ^ 5 - rejection_sample (q ^ 5) ssid ∧
      ∃ alpha, decrypt (p1 * p2) (keyLambda p1 p2) out.Dji = .ok alpha ∧
        (alpha + out.beta) % q = gamma_i * k_j % q := by
  obtain ⟨hp, hq2, hne, hpl, hql, hp4, hq4⟩ := hkey
  have hN2 : 2 ≤ p1 * p2 := by nlinarith [hp.two_le, hq2.two_le]
  set N := p1 * p2 with hNdef
  have hN0 : 0 < N := by omega
  have hM0 : 0 < N * N := by positivity
  have hq5 : 0 < q ^ 5 := by positivity
  have hbneg := rejection_sample_lt (q ^ 5) ssid hq5
  set bneg := rejection_sample (q ^ 5) ssid with hbdef
  have hq2N : q ^ 2 ≤ N := by omega
  have hqN : q < N := by nlinarith
  have hbN : bneg < N := by omega
  have hgamN : gamma_i < N := by omega
  -- the ciphertext of k_j
  rw [encrypt_ok _ _ _ hN0 (by omega) hrho] at hKj
  have hKj2 : Kj = (N + 1) ^ k_j * rho ^ N % (N * N) := (Except.ok.inj hKj).symm
  have hKlt : Kj < N * N := by rw [hKj2]; exact Nat.mod_lt _ hM0
  have hKmod : Kj ≡ (N + 1) ^ k_j * rho ^ N [MOD N * N] := by
    rw [hKj2]; exact Nat.mod_modEq _ _
  -- the three Paillier steps
  have hmult : homo_mult N (gamma_i % N) Kj = .ok (powMod Kj (gamma_i % N) (N * N)) := by
    unfold homo_mult
    rw [if_neg (not_not_intro (Nat.mod_lt _ hN0)), if_neg (not_not_intro hKlt)]
  have henc1 : encrypt_with_randomness N (bneg % N) sij =
      .ok ((N + 1) ^ (bneg % N) * sij ^ N % (N * N)) :=
    encrypt_ok _ _ _ hN0 (Nat.mod_lt _ hN0) hsij
  have hKg : powMod Kj (gamma_i % N) (N * N) < N * N := by
    rw [powMod_eq _ _ _ hM0]; exact Nat.mod_lt _ hM0
  have hD0lt : (N + 1) ^ (bneg % N) * sij ^ N % (N * N) < N * N := Nat.mod_lt _ hM0
  have hadd : homo_add N (powMod Kj (gamma_i % N) (N * N))
      ((N + 1) ^ (bneg % N) * sij ^ N % (N * N)) =
      .ok (powMod Kj (gamma_i % N) (N * N) *
        ((N + 1) ^ (bneg % N) * sij ^ N % (N * N)) % (N * N)) := by
    unfold homo_add
    rw [if_neg (not_not_intro ⟨hKg, hD0lt⟩)]
  have hNi0 : 0 < Ni := by omega
  have hNi2 : 2 ≤ Ni := by omega
  have henc2 : encrypt_with_randomness Ni (bneg % Ni) rij =
      .ok ((Ni + 1) ^ (bneg % Ni) * rij ^ Ni % (Ni * Ni)) :=
    encrypt_ok _ _ _ hNi0 (Nat.mod_lt _ hNi0) hrij
  -- congruence for the combined ciphertext Dji
  have hDmod : powMod Kj (gamma_i % N) (N * N) *
      ((N + 1) ^ (bneg % N) * sij ^ N % (N * N)) % (N * N) ≡
      (N + 1) ^ (k_j * gamma_i + bneg) * ((rho ^ gamma_i * sij) ^ N)
        [MOD N * N] := by
    have h1 : powMod Kj (gamma_i % N) (N * N) ≡
        (N + 1) ^ (k_j * gamma_i) * (rho ^ gamma_i) ^ N [MOD N * N] := by
      rw [powMod_eq _ _ _ hM0, Nat.mod_eq_of_lt hgamN]
      calc Kj ^ gamma_i % (N * N) ≡ Kj ^ gamma_i [MOD N * N] :=
          Nat.mod_modEq _ _
        _ ≡ ((N + 1) ^ k_j * rho ^ N) ^ gamma_i [MOD N * N] := hKmod.pow _
        _ = (N + 1) ^ (k_j * gamma_i) * (rho ^ gamma_i) ^ N := by
          rw [mul_pow, ← pow_mul, ← pow_mul, ← pow_mul]
          ring_nf
    have h2 : (N + 1) ^ (bneg % N) * sij ^ N % (N * N) ≡
        (N + 1) ^ bneg * sij ^ N [MOD N * N] := by
      rw [Nat.mod_eq_of_lt hbN]
      exact Nat.mod_modEq _ _
    calc powMod Kj (gamma_i % N) (N * N) *
        ((N + 1) ^ (bneg % N) * sij ^ N % (N * N)) % (N * N)
        ≡ powMod Kj (gamma_i % N) (N * N) *
          ((N + 1) ^ (bneg % N) * sij ^ N % (N * N)) [MOD N * N] :=
        Nat.mod_modEq _ _
      _ ≡ (N + 1) ^ (k_j * gamma_i) * (rho ^ gamma_i) ^ N *
          ((N + 1) ^ bneg * sij ^ N) [MOD N * N] := Nat.ModEq.mul h1 h2
      _ = (N + 1) ^ (k_j * gamma_i + bneg) * ((rho ^ gamma_i * sij) ^ N) := by
        rw [pow_add, mul_pow]
        ring
  -- the Aff-g prover guard: every numeric argument is non-zero
  have hNN2 : 2 ≤ N * N := le_trans hN2 (Nat.le_mul_of_pos_left N hN0)
  have hNiNi2 : 2 ≤ Ni * Ni := le_trans hNi2 (Nat.le_mul_of_pos_left Ni hNi0)
  have hNcop : Nat.Coprime (N + 1) (N * N) :=
    Nat.Coprime.mul_right (gammaCoprime N hN2) (gammaCoprime N hN2)
  have hrhoNN : Nat.Coprime rho (N * N) :=
    Nat.Coprime.mul_right hrho.2.2 hrho.2.2
  have hsijNN : Nat.Coprime sij (N * N) :=
    Nat.Coprime.mul_right hsij.2.2 hsij.2.2
  have hKcop : Nat.Coprime Kj (N * N) :=
    coprime_of_modeq hKmod
      (Nat.Coprime.mul (Nat.Coprime.pow_left _ hNcop)
        (Nat.Coprime.pow_left _ hrhoNN))
  have hKne : Kj ≠ 0 := ne_zero_of_coprime _ _ hNN2 hKcop
  have hDcop : Nat.Coprime (powMod Kj (gamma_i % N) (N * N) *
      ((N + 1) ^ (bneg % N) * sij ^ N % (N * N)) % (N * N)) (N * N) :=
    coprime_of_modeq hDmod
      (Nat.Coprime.mul (Nat.Coprime.pow_left _ hNcop)
        (Nat.Coprime.pow_left _
          (Nat.Coprime.mul (Nat.Coprime.pow_left _ hrhoNN) hsijNN)))
  have hDne := ne_zero_of_coprime _ _ hNN2 hDcop
  have hNicop : Nat.Coprime (Ni + 1) (Ni * Ni) :=
    Nat.Coprime.mul_right (gammaCoprime Ni hNi2) (gammaCoprime Ni hNi2)
  have hrijNN : Nat.Coprime rij (Ni * Ni) :=
    Nat.Coprime.mul_right hrij.2.2 hrij.2.2
  have hFcop : Nat.Coprime ((Ni + 1) ^ (bneg % Ni) * rij ^ Ni % (Ni * Ni))
      (Ni * Ni) :=
    coprime_of_modeq (Nat.mod_modEq _ _)
      (Nat.Coprime.mul (Nat.Coprime.pow_left _ hNicop)
        (Nat.Coprime.pow_left _ hrijNN))
  have hFne := ne_zero_of_coprime _ _ hNiNi2 hFcop
  have hgne : gamma_i % q ≠ 0 := by
    rw [Nat.mod_eq_of_lt hgam]
    omega
  refine ⟨⟨powMod Kj (gamma_i % N) (N * N) *
      ((N + 1) ^ (bneg % N) * sij ^ N % (N * N)) % (N * N),
    (Ni + 1) ^ (bneg % Ni) * rij ^ Ni % (Ni * Ni), sij, rij, q ^ 5 - bneg⟩,
    ?_, hbneg, rfl, ?_⟩
  · simp only [new_mta, ← hbdef, ← hNdef, hmult, henc1, hadd, henc2]
    rw [if_neg (by
      push_neg
      exact ⟨by omega, by omega, by omega, hKne, hDne, hFne, hgne, hbneg0,
        by omega, by omega⟩)]
  · -- decrypt Dji
    have hlam := lambda_coprime p1 p2 (bits / 2) hp hq2 hp4 hq4 hpl hql
    have hxcop : Nat.Coprime (rho ^ gamma_i * sij) N :=
      Nat.Coprime.mul (Nat.Coprime.pow_left _ hrho.2.2) hsij.2.2
    have hdec := decrypt_modeq p1 p2 (k_j * gamma_i + bneg) (rho ^ gamma_i * sij)
      _ hp hq2 hne hlam hxcop (Nat.mod_lt _ hM0) hDmod
    have hsum : k_j * gamma_i + bneg < N := by
      have hmul : k_j * gamma_i < q * q :=
        Nat.mul_lt_mul_of_lt_of_lt hkj hgam
      have hqq : q * q = q ^ 2 := by ring
      omega
    refine ⟨k_j * gamma_i + bneg, ?_, ?_⟩
    · rw [hdec, Nat.mod_eq_of_lt hsum]
    · show (k_j * gamma_i + bneg + (q ^ 5 - bneg)) % q = gamma_i * k_j % q
      have hstep : k_j * gamma_i + bneg + (q ^ 5 - bneg) =
          k_j * gamma_i + q ^ 4 * q := by
        rw [Nat.add_assoc, Nat.add_sub_cancel' (Nat.le_of_lt hbneg)]
        ring
      rw [hstep, Nat.add_mul_mod_self_right, Nat.mul_comm]

/-- C3 counterexample: at `gamma_i = 0`, inside the claim's stated range
`[0, q)`, `new_mta` raises `ValueError` through the Aff-g prover's
argument guard (`x = gamma_i mod q` is falsy in the `all()` check of
`ProofAffg.new_proof`) instead of returning the unreduced share `beta`;
the remaining inputs are those of the witness below. -/
theorem C3_counterexample_zero_gamma_raises :
    new_mta 0 2 29995 0 (19 * 23) (19 * 23) 35 2 3 3 5 =
      .error .valueError := by rfl

set_option maxHeartbeats 1000000 in
/-- Helper: a closed witness for C3 at `q = 2`, `gamma_i = k_j = 1`,
`p1 = 19`, `p2 = 23`, `rho = 2`, `sij = 3`, `rij = 5`,
`(NCap, s, t) = (35, 2, 3)`. -/
theorem C3_mta_share_identity_witness :
    ∃ out, new_mta 0 2 29995 1 (19 * 23) (19 * 23) 35 2 3 3 5 = .ok out ∧
      rejection_sample (2 ^ 5) 0 < 2 ^ 5 ∧
      out.beta = 2 ^ 5 - rejection_sample (2 ^ 5) 0 ∧
      ∃ alpha, decrypt (19 * 23) (keyLambda 19 23) out.Dji = .ok alpha ∧
        (alpha + out.beta) % 2 = 1 * 1 % 2 :=
  C3_mta_share_identity 0 2 1 1 10 19 23 (19 * 23) 35 2 3 2 3 5 29995
    ⟨by norm_num, by norm_num, by norm_num, by rfl, by rfl, by norm_num,
     by norm_num⟩
    (by norm_num) (by norm_num) (by norm_num) (by norm_num) (by norm_num)
    (by norm_num) (by norm_num) (by norm_num)
    (by decide)
    ⟨by norm_num, by norm_num, by norm_num⟩
    ⟨by norm_num, by norm_num, by norm_num⟩
    ⟨by norm_num, by norm_num, by norm_num⟩
    (by rfl)

theorem mod_nsmul {Pt : Type} [AddCommGroup Pt] (G : Pt) (n m : Nat)
    (h : n • G = 0) : (m % n) • G = m • G := by
  conv_rhs => rw [← Nat.div_add_mod m n]
  rw [add_nsmul, mul_nsmul, h, smul_zero, zero_add]

/-- Completeness of the Schnorr proof: an honestly generated proof for
`X = x*G` with nonce point `A = alpha*G` passes `verify`, for any value
of the Fiat-Shamir challenge. -/
theorem schVerify_complete {Pt : Type} [AddCommGroup Pt] [DecidableEq Pt]
    (ec : ECOps Pt) (ssid x alpha : Nat) :
    schVerify ec ssid (x • ec.G)
      (schNewProofWithAlpha ec ssid (x • ec.G) (alpha • ec.G) alpha x) =
      true := by
  unfold schVerify schNewProofWithAlpha
  rw [decide_eq_true_eq]
  show ((alpha + schChallenge ec ssid (x • ec.G) (alpha • ec.G) * x) % ec.n)
      • ec.G = alpha • ec.G +
        schChallenge ec ssid (x • ec.G) (alpha • ec.G) • x • ec.G
  rw [mod_nsmul ec.G ec.n _ ec.order_ann, add_nsmul,
    mul_comm (schChallenge ec ssid (x • ec.G) (alpha • ec.G)) x, mul_nsmul]

/-- Serialization round trip for Schnorr proofs with a non-infinity
commitment point and a reduced response. -/
theorem schFromBytes_toBytesParts {Pt : Type} [AddCommGroup Pt]
    [DecidableEq Pt] (ec : ECOps Pt) (prf : ProofSch Pt)
    (hA : prf.A ≠ 0) (hZ : prf.Z < ec.n) :
    schFromBytes ec (schToBytesParts ec prf) = some prf := by
  show Option.map (fun A => (⟨A, prf.Z % ec.n⟩ : ProofSch Pt))
      (ec.fromCoords (ec.xcoord prf.A % ec.p) (ec.ycoord prf.A % ec.p)) =
    some prf
  rw [Nat.mod_eq_of_lt (ec.xcoord_lt _), Nat.mod_eq_of_lt (ec.ycoord_lt _),
    ec.fromCoords_eq _ hA]
  simp [Nat.mod_eq_of_lt hZ]

/-- An honest `Keygen.round3` succeeds and produces exactly the expected
state and message. -/
theorem keygenRound3_honest {Pt : Type} [AddCommGroup Pt] [DecidableEq Pt]
    (ec : ECOps Pt) (idi idj xi xj ridi ridj ai aj a2i : Nat) :
    keygenRound3 ec (keygenInit ec idi xi ridi ai) a2i
      (keygenRound1 (keygenInit ec idj xj ridj aj))
      (keygenRound2 (keygenInit ec idj xj ridj aj)) =
    .ok (⟨keygenInit ec idi xi ridi ai, xj • ec.G, aj • ec.G, ridi ^^^ ridj⟩,
      ⟨schToBytesParts ec (schNewProofWithAlpha ec (ridi ^^^ ridj)
          (xi • ec.G) (ai • ec.G) ai xi),
        schToBytesParts ec (schNewProofWithAlpha ec (ridi ^^^ ridj)
          (ai • ec.G) (a2i • ec.G) a2i ai),
        sha512_256i [idi, ridi ^^^ ridj, ec.xcoord (ai • ec.G),
          (schNewProofWithAlpha ec (ridi ^^^ ridj) (xi • ec.G) (ai • ec.G)
            ai xi).Z,
          ec.xcoord (a2i • ec.G),
          (schNewProofWithAlpha ec (ridi ^^^ ridj) (ai • ec.G)
            (a2i • ec.G) a2i ai).Z]⟩) := by
  unfold keygenRound3 keygenRound1 keygenRound2 keygenInit
  rw [if_neg (fun h => h rfl)]
  rfl

/-- An honest `Keygen.round_out` succeeds on the counterparty's honest
round-3 message and outputs `X = Xi + Xj` with `ssid = ridi xor ridj`. -/
theorem keygenRoundOut_honest {Pt : Type} [AddCommGroup Pt] [DecidableEq Pt]
    (ec : ECOps Pt) (idi idj xi xj ridi ridj ai aj a2j : Nat)
    (haj : 0 < aj ∧ aj < ec.n) (ha2j : 0 < a2j ∧ a2j < ec.n) :
    keygenRoundOut ec
      ⟨keygenInit ec idi xi ridi ai, xj • ec.G, aj • ec.G, ridi ^^^ ridj⟩ idj
      ⟨schToBytesParts ec (schNewProofWithAlpha ec (ridj ^^^ ridi)
          (xj • ec.G) (aj • ec.G) aj xj),
        schToBytesParts ec (schNewProofWithAlpha ec (ridj ^^^ ridi)
          (aj • ec.G) (a2j • ec.G) a2j aj),
        sha512_256i [idj, ridj ^^^ ridi, ec.xcoord (aj • ec.G),
          (schNewProofWithAlpha ec (ridj ^^^ ridi) (xj • ec.G) (aj • ec.G)
            aj xj).Z,
          ec.xcoord (a2j • ec.G),
          (schNewProofWithAlpha ec (ridj ^^^ ridi) (aj • ec.G)
            (a2j • ec.G) a2j aj).Z]⟩ =
    .ok ⟨ridi ^^^ ridj, xi, xi • ec.G, xj • ec.G,
      xi • ec.G + xj • ec.G⟩ := by
  rw [Nat.xor_comm ridj ridi]
  have hrt1 := schFromBytes_toBytesParts ec
    (schNewProofWithAlpha ec (ridi ^^^ ridj) (xj • ec.G) (aj • ec.G) aj xj)
    (ec.order_min aj haj.2 haj.1) (Nat.mod_lt _ ec.n_pos)
  have hrt2 := schFromBytes_toBytesParts ec
    (schNewProofWithAlpha ec (ridi ^^^ ridj) (aj • ec.G) (a2j • ec.G) a2j aj)
    (ec.order_min a2j ha2j.2 ha2j.1) (Nat.mod_lt _ ec.n_pos)
  unfold keygenRoundOut
  simp only [hrt1, hrt2]
  rw [if_neg (fun h => h rfl), if_neg (fun h => h rfl),
    if_neg (not_not_intro ⟨schVerify_complete ec (ridi ^^^ ridj) xj aj,
      schVerify_complete ec (ridi ^^^ ridj) aj a2j⟩)]
  rfl

/-- C6: Keygen agreement.  Two honest `Keygen` instances with arbitrary
secret draws (`x_i`, `x_j`, `rid_i`, `rid_j` and the Schnorr nonces)
that exchange round1/round2/round3 messages as prescribed both complete
`round_out` without a `VerificationError`, output the same combined
public key `X = X_i + X_j`, and both compute the session id
`ssid = rid_i xor rid_j`. -/
theorem C6_keygen_agreement {Pt : Type} [AddCommGroup Pt] [DecidableEq Pt]
    (ec : ECOps Pt) (idi idj xi xj ridi ridj ai aj a2i a2j : Nat)
    (hxi : 0 < xi ∧ xi < ec.n) (hxj : 0 < xj ∧ xj < ec.n)
    (hai : 0 < ai ∧ ai < ec.n) (haj : 0 < aj ∧ aj < ec.n)
    (ha2i : 0 < a2i ∧ a2i < ec.n) (ha2j : 0 < a2j ∧ a2j < ec.n) :
    ∃ st3i m3i st3j m3j outi outj,
      keygenRound3 ec (keygenInit ec idi xi ridi ai) a2i
        (keygenRound1 (keygenInit ec idj xj ridj aj))
        (keygenRound2 (keygenInit ec idj xj ridj aj)) = .ok (st3i, m3i) ∧
      keygenRound3 ec (keygenInit ec idj xj ridj aj) a2j
        (keygenRound1 (keygenInit ec idi xi ridi ai))
        (keygenRound2 (keygenInit ec idi xi ridi ai)) = .ok (st3j, m3j) ∧
      keygenRoundOut ec st3i idj m3j = .ok outi ∧
      keygenRoundOut ec st3j idi m3i = .ok outj ∧
      outi.X = outj.X ∧ outi.X = xi • ec.G + xj • ec.G ∧
      outi.ssid = ridi ^^^ ridj ∧ outj.ssid = ridi ^^^ ridj := by
  refine ⟨_, _, _, _,
    ⟨ridi ^^^ ridj, xi, xi • ec.G, xj • ec.G, xi • ec.G + xj • ec.G⟩,
    ⟨ridj ^^^ ridi, xj, xj • ec.G, xi • ec.G, xj • ec.G + xi • ec.G⟩,
    keygenRound3_honest ec idi idj xi xj ridi ridj ai aj a2i,
    keygenRound3_honest ec idj idi xj xi ridj ridi aj ai a2j,
    keygenRoundOut_honest ec idi idj xi xj ridi ridj ai aj a2j haj ha2j,
    keygenRoundOut_honest ec idj idi xj xi ridj ridi aj ai a2i hai ha2i,
    ?_, rfl, rfl, ?_⟩
  · exact (add_comm _ _).symm
  · exact Nat.xor_comm _ _

/-- Witness for C6 at concrete inputs: the toy group with party ids `0`/`1`,
secrets `x_i = 2`, `x_j = 7`, rids `5`/`9` and Schnorr nonces `3, 6, 4, 8`. -/
theorem C6_keygen_agreement_witness :
    ∃ st3i m3i st3j m3j outi outj,
      keygenRound3 toyEC (keygenInit toyEC 0 2 5 3) 4
        (keygenRound1 (keygenInit toyEC 1 7 9 6))
        (keygenRound2 (keygenInit toyEC 1 7 9 6)) = .ok (st3i, m3i) ∧
      keygenRound3 toyEC (keygenInit toyEC 1 7 9 6) 8
        (keygenRound1 (keygenInit toyEC 0 2 5 3))
        (keygenRound2 (keygenInit toyEC 0 2 5 3)) = .ok (st3j, m3j) ∧
      keygenRoundOut toyEC st3i 1 m3j = .ok outi ∧
      keygenRoundOut toyEC st3j 0 m3i = .ok outj ∧
      outi.X = outj.X ∧ outi.X = 2 • toyEC.G + 7 • toyEC.G ∧
      outi.ssid = 5 ^^^ 9 ∧ outj.ssid = 5 ^^^ 9 :=
  C6_keygen_agreement toyEC 0 1 2 7 5 9 3 6 4 8
    (by decide) (by decide) (by decide) (by decide) (by decide) (by decide)

/-- C4: in `Presigning.round_out`, whenever the counterparty's proof
parses and the combined `delta = (delta_i + delta_j) mod q` fails the
consistency check `delta * G = vdelta_i + vdelta_j`, a
`VerificationError` is raised; and every successful return satisfies the
check and outputs `R = delta^-1 * Gamma` with `k_i` and `chi_i`
unchanged. -/
theorem C4_presigning_roundout_delta_gate {Pt : Type} [AddCommGroup Pt]
    [DecidableEq Pt] (ec : ECOps Pt) (st : PresigStateOut Pt)
    (m3 : PresigningRound3Message Pt) :
    (∀ psi, logstarFromBytes ec m3.psi = some psi →
      ((st.delta_i + m3.delta) % ec.n) • ec.G ≠ st.vdelta_i + m3.vdelta →
      presigningRoundOut ec st m3 = .error .verificationError) ∧
    (∀ out, presigningRoundOut ec st m3 = .ok out →
      ((st.delta_i + m3.delta) % ec.n) • ec.G = st.vdelta_i + m3.vdelta ∧
      out.R = invert ((st.delta_i + m3.delta) % ec.n) ec.n • st.Gamma ∧
      out.k_i = st.k_i ∧ out.chi_i = st.chi_i) := by
  constructor
  · intro psi hpsi hne
    unfold presigningRoundOut
    simp only [hpsi]
    by_cases hv : logstarVerify ec st.ssid st.pubjN st.K_j_ct m3.vdelta
        st.Gamma st.pubiN st.si st.ti psi = true
    · rw [if_neg (not_not_intro hv), if_pos hne]
    · rw [if_pos hv]
  · intro out hout
    unfold presigningRoundOut at hout
    cases hpsi : logstarFromBytes ec m3.psi with
    | none =>
      simp only [hpsi] at hout
      exact absurd hout (by simp)
    | some psi =>
      simp only [hpsi] at hout
      by_cases hv : logstarVerify ec st.ssid st.pubjN st.K_j_ct m3.vdelta
          st.Gamma st.pubiN st.si st.ti psi = true
      · rw [if_neg (not_not_intro hv)] at hout
        by_cases hd : ((st.delta_i + m3.delta) % ec.n) • ec.G =
            st.vdelta_i + m3.vdelta
        · rw [if_neg (not_not_intro hd)] at hout
          by_cases hg : Nat.gcd ((st.delta_i + m3.delta) % ec.n) ec.n = 1
          · rw [if_neg (not_not_intro hg)] at hout
            injection hout with h
            subst h
            exact ⟨hd, rfl, rfl, rfl⟩
          · rw [if_pos hg] at hout
            exact absurd hout (by simp)
        · rw [if_pos hd] at hout
          exact absurd hout (by simp)
      · rw [if_pos hv] at hout
        exact absurd hout (by simp)

/-- Witness for C4 at concrete inputs: the toy group, the state `c4St`
and the honest message `c4Msg`; `delta = (2 + 3) mod 13 = 5` passes the
point check and `round_out` returns `R = 5^-1 * Gamma = 6` with
`k_i = 9` and `chi_i = 10` unchanged. -/
theorem C4_presigning_roundout_delta_gate_witness :
    presigningRoundOut toyEC c4St c4Msg = .ok ⟨6, 9, 10⟩ ∧
    ((c4St.delta_i + c4Msg.delta) % toyEC.n) • toyEC.G =
      c4St.vdelta_i + c4Msg.vdelta := by
  have hok : presigningRoundOut toyEC c4St c4Msg = .ok ⟨6, 9, 10⟩ := by rfl
  exact ⟨hok, ((C4_presigning_roundout_delta_gate toyEC c4St c4Msg).2
    ⟨6, 9, 10⟩ hok).1⟩

/-- C5: the `Signing` constructor raises exactly when `r = R.x mod q`
is zero; on a state built from a presignature with `r` non-zero,
`sign` returns `sigma_i = (k_i * SHA256(message) + chi_i * r) mod q`. -/
theorem C5_signing_share_formula {Pt : Type} [AddCommGroup Pt]
    [DecidableEq Pt] (ec : ECOps Pt) (presig : PresigOutputData Pt)
    (X : Pt) (message : List Nat) :
    (ec.xcoord presig.R % ec.n = 0 →
      signingInit ec presig X = .error .valueError) ∧
    (∀ st, signingInit ec presig X = .ok st →
      st.r = ec.xcoord presig.R % ec.n ∧ st.r ≠ 0 ∧
      st.k_i = presig.k_i ∧ st.chi_i = presig.chi_i ∧
      (signingSign ec st message).2.sigma =
        (presig.k_i * sha256Nat message +
          presig.chi_i * (ec.xcoord presig.R % ec.n)) % ec.n) := by
  constructor
  · intro h0
    unfold signingInit
    rw [if_pos h0]
  · intro st hst
    unfold signingInit at hst
    by_cases h0 : ec.xcoord presig.R % ec.n = 0
    · rw [if_pos h0] at hst
      exact absurd hst (by simp)
    · rw [if_neg h0] at hst
      injection hst with h
      subst h
      exact ⟨rfl, h0, rfl, rfl, rfl⟩

/-- Witness for C5 at concrete inputs: the toy group with
`R = 3` (so `r = 3`), `k_i = 2`, `chi_i = 4` and message `"test"`. -/
theorem C5_signing_share_formula_witness :
    signingInit toyEC ⟨3, 2, 4⟩ 0 = .ok ⟨0, 3, 3, 2, 4, none⟩ ∧
    (signingSign toyEC ⟨0, 3, 3, 2, 4, none⟩ [116, 101, 115, 116]).2.sigma =
      (2 * sha256Nat [116, 101, 115, 116] + 4 * 3) % 13 :=
  ⟨rfl, ((C5_signing_share_formula toyEC ⟨3, 2, 4⟩ 0
    [116, 101, 115, 116]).2 ⟨0, 3, 3, 2, 4, none⟩ rfl).2.2.2.2⟩

/-- C10: once `sign` has run (`sigma_i` is set), `Signing.verify` never
returns `False`: it returns `.ok b` only for `b = true`, raises
`VerificationError` exactly when the combined `s = (sigma_i + sigma_j)
mod q` is zero or the ECDSA verification of `(r, s)` against `X` fails,
and returns `True` exactly otherwise. -/
theorem C10_signing_verify_no_false {Pt : Type} [AddCommGroup Pt]
    [DecidableEq Pt] (ec : ECOps Pt) (st : SigningState Pt)
    (message : List Nat) (m : SigningMessage) (sigmai : Nat)
    (hs : st.sigma_i = some sigmai) :
    (∀ b, signingVerify ec st message m = .ok b → b = true) ∧
    (signingVerify ec st message m = .error .verificationError ↔
      ((sigmai + m.sigma) % ec.n = 0 ∨
        ¬ ecdsaVerify ec st.X (sha256Nat message) st.r
          ((sigmai + m.sigma) % ec.n) = true)) ∧
    (signingVerify ec st message m = .ok true ↔
      ((sigmai + m.sigma) % ec.n ≠ 0 ∧
        ecdsaVerify ec st.X (sha256Nat message) st.r
          ((sigmai + m.sigma) % ec.n) = true)) := by
  unfold signingVerify
  simp only [hs]
  by_cases h1 : (sigmai + m.sigma) % ec.n = 0
  · rw [if_pos h1]
    exact ⟨fun b hb => absurd hb (by simp), by simp [h1], by simp [h1]⟩
  · rw [if_neg h1]
    by_cases h2 : ecdsaVerify ec st.X (sha256Nat message) st.r
        ((sigmai + m.sigma) % ec.n) = true
    · rw [if_neg (not_not_intro h2)]
      refine ⟨fun b hb => ?_, by simp [h1, h2], by simp [h1, h2]⟩
      injection hb with h
      exact h.symm
    · rw [if_pos h2]
      exact ⟨fun b hb => absurd hb (by simp), by simp [h2], by simp [h2]⟩

/-- Witness for C10 at concrete inputs: the toy group with public key
`X = 2 * G`, `r = 3`, message `"test"` and combined share `s = 5`, on
which verification succeeds with `True`. -/
theorem C10_signing_verify_no_false_witness :
    signingVerify toyEC ⟨2, 3, 3, 0, 0, some 5⟩ [116, 101, 115, 116] ⟨0⟩ =
      .ok true :=
  (C10_signing_verify_no_false toyEC ⟨2, 3, 3, 0, 0, some 5⟩
    [116, 101, 115, 116] ⟨0⟩ 5 rfl).2.2.mpr ⟨by decide, by rfl⟩

end CSCV
